import Mathlib

/-!
# Rules core of the soccer simulator: referee, validator and coach

A shallow embedding of `src/engine/logic/referee.c` and `src/engine/logic/coach.c`,
together with the properties the specification states about them.

Modelling conventions.

* A C `float` is a rational number: the data model only admits finite values, and
  the arithmetic is taken exact, so comparisons are the mathematical ones.
* A C `int` is an `Int`, and an addition on `int`s (the increment of a score, the sum
  of the four talents) is computed with the wrap-around of a 32-bit `int`
  (`wrapInt32`).
* A `struct Player *` is a `PlayerId` (the address of the object); the objects
  themselves live in `World.player`.  A null pointer is `none`.
* Every `printf` of the source is one `Report` appended to the list a function
  returns next to its result.
* The compile-time constants of `core/constants.h` are the fields of `Constants`;
  a function that uses one takes them as its first argument.
* The C library is a parameter as well (`Libm`): `hypotf` is any function of two
  rationals, and the values `rand()` returns are arguments of the functions that call
  it.  Statements about the Euclidean distance are made where `hypotf` returns it.
* A function pointer of the lookup tables is the name of the function it points to
  (`PlayerLogicFn`), and `PlayerLogicFn.call` is the call through it.
-/

namespace Soccer

/-! ## Data model -/

/-- Modelled from the spec: the compile-time constants of `core/constants.h` (pitch
and goal geometry, radii, velocity caps, talent bounds, roster size), which the
sources only use by name.  They are a parameter of each definition that uses one. -/
structure Constants where
  PITCH_X : ℚ
  PITCH_Y : ℚ
  PITCH_W : ℚ
  PITCH_H : ℚ
  CENTER_X : ℚ
  CENTER_Y : ℚ
  GOAL_HEIGHT : ℚ
  BALL_RADIUS : ℚ
  PLAYER_RADIUS : ℚ
  MAX_PLAYER_VELOCITY : ℚ
  MAX_BALL_VELOCITY : ℚ
  MAX_TALENT_PER_SKILL : Int
  MAX_TALENT_PER_PLAYER : Int
  PLAYER_COUNT : Nat

/-- Modelled from the spec: `struct Vec2`, a position or a velocity. -/
structure Vec2 where
  x : ℚ
  y : ℚ
deriving DecidableEq

/-- Modelled from the spec: `struct Talents`, four integer skills. -/
structure Talents where
  defence : Int
  agility : Int
  dribbling : Int
  shooting : Int
deriving DecidableEq

/-- Modelled from the spec: the discrete player states of `entities/player.h`. -/
inductive PlayerState where
  | IDLE
  | MOVING
  | SHOOTING
  | INTERCEPTING
deriving DecidableEq

/-- Modelled from the spec: the three outcomes `referee` can return (`referee.h`). -/
inductive Event where
  | PLAY_ON
  | GOAL
  | OUT
deriving DecidableEq

/-- Modelled from the spec: `struct Player`, with the fields the sources read or
write. -/
structure Player where
  team : Int
  kit : Int
  position : Vec2
  velocity : Vec2
  radius : ℚ
  talents : Talents
  state : PlayerState
deriving DecidableEq

/-- The address of a `struct Player`. -/
abbrev PlayerId := Nat

/-- Modelled from the spec: `struct Ball`; `possessor` is a nullable pointer. -/
structure Ball where
  position : Vec2
  velocity : Vec2
  radius : ℚ
  possessor : Option PlayerId
deriving DecidableEq

/-- Modelled from the spec: `struct Team`; `players` is the array of roster slots,
each a nullable pointer. -/
structure Team where
  score : Int
  players : Nat → Option PlayerId

/-- Modelled from the spec: `struct Scene`, both teams and the ball. -/
structure Scene where
  first_team : Team
  second_team : Team
  ball : Ball

/-- The memory a call works on: the player objects by address, and the scene. -/
structure World where
  player : PlayerId → Player
  scene : Scene

/-- One line printed by the rules core. -/
inductive Report where
  | goalRight (x y : ℚ)
  | goalLeft (x y : ℚ)
  | ballOut (x y : ℚ)
  | invalidTalents (defence agility dribbling shooting sum : Int)
  | notYourBall (team kit : Int)
  | runTooFastX (team kit : Int)
  | runTooFastY (team kit : Int)
  | shootTooFastX (team kit : Int)
  | shootTooFastY (team kit : Int)
  | ownHalf (team kit : Int)
deriving DecidableEq

/-! ## Referee (`referee.c`) -/

/-- The value a 32-bit `int` holds after an addition whose mathematical result is `n`
(two's-complement wrap-around). -/
def wrapInt32 (n : Int) : Int := (n + 2147483648) % 4294967296 - 2147483648

/-- Embeds `static int goal(float x, float y)`: 1 if team 1 scores, 2 if team 2 scores,
0 otherwise. -/
def goal (c : Constants) (x y : ℚ) : Int × List Report :=
  let left_line := c.PITCH_X
  let right_line := c.PITCH_X + c.PITCH_W
  let goal_top := c.CENTER_Y - c.GOAL_HEIGHT / 2
  let goal_bottom := c.CENTER_Y + c.GOAL_HEIGHT / 2
  let inside_goal_mouth : Bool :=
    decide (y - c.BALL_RADIUS ≥ goal_top) && decide (y + c.BALL_RADIUS ≤ goal_bottom)
  if inside_goal_mouth && decide (x - c.BALL_RADIUS > right_line) then
    (1, [Report.goalRight x y])
  else if inside_goal_mouth && decide (x + c.BALL_RADIUS < left_line) then
    (2, [Report.goalLeft x y])
  else
    (0, [])

/-- Embeds `static bool out(float x, float y)`. -/
def out (c : Constants) (x y : ℚ) : Bool × List Report :=
  let left_line := c.PITCH_X
  let right_line := c.PITCH_X + c.PITCH_W
  let top_line := c.PITCH_Y
  let bottom_line := c.PITCH_Y + c.PITCH_H
  let out_left : Bool := decide (x + c.BALL_RADIUS < left_line)
  let out_right : Bool := decide (x - c.BALL_RADIUS > right_line)
  let out_top : Bool := decide (y + c.BALL_RADIUS < top_line)
  let out_bottom : Bool := decide (y - c.BALL_RADIUS > bottom_line)
  if out_left || out_right || out_top || out_bottom then
    (true, [Report.ballOut x y])
  else
    (false, [])

/-- Embeds `int referee(struct Scene* scene)`: the event, the scene after the call and the
lines printed. -/
def referee (c : Constants) (scene : Scene) : Event × Scene × List Report :=
  let x := scene.ball.position.x
  let y := scene.ball.position.y
  let scored := goal c x y
  if scored.1 = 1 then
    (Event.GOAL,
      { scene with
        first_team :=
          { scene.first_team with score := wrapInt32 (scene.first_team.score + 1) } },
      scored.2)
  else if scored.1 = 2 then
    (Event.GOAL,
      { scene with
        second_team :=
          { scene.second_team with score := wrapInt32 (scene.second_team.score + 1) } },
      scored.2)
  else
    let o := out c x y
    if o.1 then (Event.OUT, scene, scored.2 ++ o.2)
    else (Event.PLAY_ON, scene, scored.2 ++ o.2)

/-! ## Validator (`referee.c`) -/

/-- Embeds `void verify_state(struct Player *player, struct Scene *scene)`. -/
def verify_state (self : PlayerId) (w : World) : World × List Report :=
  let player := w.player self
  if w.scene.ball.possessor ≠ some self ∧ player.state = PlayerState.SHOOTING then
    ({ w with player := Function.update w.player self { player with state := PlayerState.MOVING } },
      [Report.notYourBall player.team player.kit])
  else
    (w, [])

/-- Embeds `void verify_movement(struct Player *player)`. -/
def verify_movement (c : Constants) (player : Player) : Player × List Report :=
  let max : ℚ :=
    ((player.talents.agility : ℚ) / (c.MAX_TALENT_PER_SKILL : ℚ)) * c.MAX_PLAYER_VELOCITY
  let s1 : Player × List Report :=
    if |player.velocity.x| > max then
      ({ player with
          velocity := { player.velocity with x := if player.velocity.x > 0 then max else -max } },
        [Report.runTooFastX player.team player.kit])
    else (player, [])
  let s2 : Player × List Report :=
    if |s1.1.velocity.y| > max then
      ({ s1.1 with
          velocity := { s1.1.velocity with y := if s1.1.velocity.y > 0 then max else -max } },
        s1.2 ++ [Report.runTooFastY s1.1.team s1.1.kit])
    else s1
  s2

/-- Embeds `void verify_shoot(struct Ball *ball, bool kickoff)`; `mem` is the memory the
possessor pointer is read from. -/
def verify_shoot (c : Constants) (mem : PlayerId → Player) (ball : Ball) (kickoff : Bool) :
    Ball × List Report :=
  match ball.possessor with
  | none => (ball, [])
  | some pid =>
    let player := mem pid
    let max : ℚ :=
      c.MAX_BALL_VELOCITY * ((player.talents.shooting : ℚ) / (c.MAX_TALENT_PER_SKILL : ℚ))
    let s1 : Ball × List Report :=
      if |ball.velocity.x| > max then
        ({ ball with
            velocity := { ball.velocity with x := if ball.velocity.x > 0 then max else -max } },
          [Report.shootTooFastX player.team player.kit])
      else (ball, [])
    let s2 : Ball × List Report :=
      if |s1.1.velocity.y| > max then
        ({ s1.1 with
            velocity := { s1.1.velocity with y := if s1.1.velocity.y > 0 then max else -max } },
          s1.2 ++ [Report.shootTooFastY player.team player.kit])
      else s1
    if kickoff then
      let invalid_team1 : Bool := decide (player.team = 1) && decide (s2.1.velocity.x > 0)
      let invalid_team2 : Bool := decide (player.team = 2) && decide (s2.1.velocity.x < 0)
      if invalid_team1 || invalid_team2 then
        (s2.1, s2.2 ++ [Report.ownHalf player.team player.kit])
      else s2
    else s2

/-! ## State decision (`coach.c`) -/

/-- Embeds `static bool player_ball_colliding(const struct Player *p, const struct Ball *b)`. -/
def player_ball_colliding (p : Player) (b : Ball) : Bool :=
  let dx := p.position.x - b.position.x
  let dy := p.position.y - b.position.y
  let rs := p.radius + b.radius
  decide (dx * dx + dy * dy ≤ rs * rs)

/-- The store `self->state = st`. -/
def World.setState (w : World) (self : PlayerId) (st : PlayerState) : World :=
  { w with player := Function.update w.player self { w.player self with state := st } }

/-- Embeds `void change_stater(struct Player *self, struct Scene *scene)`. -/
def change_stater (self : PlayerId) (w : World) : World :=
  let w1 := w.setState self PlayerState.MOVING
  let w2 :=
    if player_ball_colliding (w1.player self) w1.scene.ball then
      w1.setState self PlayerState.INTERCEPTING
    else w1
  let w3 :=
    if w2.scene.ball.possessor = some self then w2.setState self PlayerState.SHOOTING
    else w2
  w3

/-! ## Talent check (`referee.c`) -/

/-- Embeds `void verify_talents(struct Talents talents)`; the argument is passed by
value, so the lines printed are the whole effect. -/
def verify_talents (c : Constants) (talents : Talents) : List Report :=
  let sum : Int :=
    wrapInt32 (wrapInt32 (wrapInt32 (talents.defence + talents.agility) + talents.dribbling)
      + talents.shooting)
  let invalid : Bool :=
    decide (talents.defence < 1) || decide (talents.defence > c.MAX_TALENT_PER_SKILL) ||
    decide (talents.agility < 1) || decide (talents.agility > c.MAX_TALENT_PER_SKILL) ||
    decide (talents.dribbling < 1) || decide (talents.dribbling > c.MAX_TALENT_PER_SKILL) ||
    decide (talents.shooting < 1) || decide (talents.shooting > c.MAX_TALENT_PER_SKILL) ||
    decide (sum > c.MAX_TALENT_PER_PLAYER)
  if invalid then
    [Report.invalidTalents talents.defence talents.agility talents.dribbling talents.shooting sum]
  else
    []

/-! ## Movement and kick primitives (`coach.c`) -/

/-- Modelled from the spec: the part of the C library that `coach.c` calls.  `hypotf x y`
is the library's value for the Euclidean norm of `(x, y)`; `RAND_MAX` is the largest
value `rand()` returns.  Both are parameters of the definitions that use them. -/
structure Libm where
  hypotf : ℚ → ℚ → ℚ
  RAND_MAX : Nat

/-- Embeds `static float max_player_speed(const struct Player *self)`. -/
def max_player_speed (c : Constants) (self : Player) : ℚ :=
  ((self.talents.agility : ℚ) / (c.MAX_TALENT_PER_SKILL : ℚ)) * c.MAX_PLAYER_VELOCITY

/-- Embeds `static float max_ball_speed(const struct Player *self)`. -/
def max_ball_speed (c : Constants) (self : Player) : ℚ :=
  ((self.talents.shooting : ℚ) / (c.MAX_TALENT_PER_SKILL : ℚ)) * c.MAX_BALL_VELOCITY

/-- The stores `self->velocity.x = v.x; self->velocity.y = v.y`. -/
def World.setVelocity (w : World) (self : PlayerId) (v : Vec2) : World :=
  { w with player := Function.update w.player self { w.player self with velocity := v } }

/-- The stores `scene->ball->velocity.x = v.x; scene->ball->velocity.y = v.y`. -/
def World.setBallVelocity (w : World) (v : Vec2) : World :=
  { w with scene := { w.scene with ball := { w.scene.ball with velocity := v } } }

/-- Embeds `static void move_towards_target(struct Player *self, float target_x,
float target_y, float motivation)`. -/
def move_towards_target (c : Constants) (L : Libm) (self : PlayerId) (w : World)
    (target_x target_y motivation : ℚ) : World :=
  let dx := target_x - (w.player self).position.x
  let dy := target_y - (w.player self).position.y
  let d := L.hypotf dx dy
  if d ≤ 1 / 1000 then
    w.setVelocity self ⟨0, 0⟩
  else
    let max_v := max_player_speed c (w.player self) * motivation
    w.setVelocity self ⟨(dx / d) * max_v, (dy / d) * max_v⟩

/-- Embeds `void pressing_movement(struct Player *self, struct Scene *scene,
float motivation)`. -/
def pressing_movement (c : Constants) (L : Libm) (self : PlayerId) (w : World)
    (motivation : ℚ) : World :=
  move_towards_target c L self w w.scene.ball.position.x w.scene.ball.position.y motivation

/-- Embeds `void attacking_movement(struct Player *self, struct Scene *scene,
float motivation)`. -/
def attacking_movement (c : Constants) (L : Libm) (self : PlayerId) (w : World)
    (motivation : ℚ) : World :=
  let diff : ℚ := if (w.player self).team = 1 then c.PITCH_W / 2 else -(c.PITCH_W / 2)
  move_towards_target c L self w (c.CENTER_X + diff) c.CENTER_Y motivation

/-- Embeds `void gk_movement(struct Player *self, struct Scene *scene)`. -/
def gk_movement (c : Constants) (L : Libm) (self : PlayerId) (w : World) : World :=
  let x_target : ℚ :=
    if (w.player self).team = 1 then c.PITCH_X + c.PLAYER_RADIUS
    else c.PITCH_X + c.PITCH_W - c.PLAYER_RADIUS
  let goal_top := c.CENTER_Y - c.GOAL_HEIGHT / 2 + c.BALL_RADIUS
  let goal_bottom := c.CENTER_Y + c.GOAL_HEIGHT / 2 - c.BALL_RADIUS
  let y_target : ℚ :=
    if w.scene.ball.position.y ≥ goal_top ∧ w.scene.ball.position.y ≤ goal_bottom then
      w.scene.ball.position.y
    else (w.player self).position.y
  move_towards_target c L self w x_target y_target 1

/-- The local `y_selection` of `shoot`, for the value `r` that `rand()` returns. -/
def shoot_y_selection (c : Constants) (L : Libm) (r : Nat) : ℚ :=
  let min_y := c.CENTER_Y - c.GOAL_HEIGHT / 2 + c.BALL_RADIUS
  let max_y := c.CENTER_Y + c.GOAL_HEIGHT / 2 - c.BALL_RADIUS
  min_y + ((r : ℚ) / (L.RAND_MAX : ℚ)) * (max_y - min_y)

/-- Embeds `void shoot(struct Player *self, struct Scene *scene, float x)`; `r` is the
value its call of `rand()` returns (the one-time seeding only chooses the sequence). -/
def shoot (c : Constants) (L : Libm) (r : Nat) (self : PlayerId) (w : World) (x : ℚ) :
    World :=
  let y_selection := shoot_y_selection c L r
  let dx := x - (w.player self).position.x
  let dy := y_selection - (w.player self).position.y
  let d := L.hypotf dx dy
  if d ≤ 1 / 1000 then
    w.setBallVelocity ⟨0, 0⟩
  else
    let max_v := max_ball_speed c (w.player self)
    w.setBallVelocity ⟨(dx / d) * max_v, (dy / d) * max_v⟩

/-- Embeds `void pass(struct Player *self, struct Player *receiver,
struct Scene *scene)`. -/
def pass (c : Constants) (L : Libm) (self receiver : PlayerId) (w : World) : World :=
  let dx := (w.player receiver).position.x - (w.player self).position.x
  let dy := (w.player receiver).position.y - (w.player self).position.y
  let d := L.hypotf dx dy
  if d ≤ 1 / 1000 then
    w.setBallVelocity ⟨0, 0⟩
  else
    let pass_speed := max_ball_speed c (w.player self) * (17 / 20)
    w.setBallVelocity ⟨(dx / d) * pass_speed, (dy / d) * pass_speed⟩

/-- One iteration of the `for` loop of `decide_kick`, at roster index `i`. -/
def decide_kick_step (w : World) (self : PlayerId) (current_team : Team)
    (leader : PlayerId) (i : Nat) : PlayerId :=
  match current_team.players i with
  | none => leader
  | some candidate =>
    if candidate = self then leader
    else
      let better : Bool :=
        if (w.player self).team = 1 then
          decide ((w.player candidate).position.x > (w.player leader).position.x)
        else
          decide ((w.player candidate).position.x < (w.player leader).position.x)
      if better then candidate else leader

/-- The `for` loop of `decide_kick` over the first `n` roster slots, from `leader`. -/
def decide_kick_loop (w : World) (self : PlayerId) (current_team : Team) (n : Nat)
    (leader : PlayerId) : PlayerId :=
  (List.range n).foldl (decide_kick_step w self current_team) leader

/-- Embeds `void decide_kick(struct Player *self, struct Scene *scene)`; `rnd k` is the
value the `k`-th call of `rand()` made by this call returns. -/
def decide_kick (c : Constants) (L : Libm) (rnd : Nat → Nat) (self : PlayerId) (w : World) :
    World :=
  let current_team : Team :=
    if (w.player self).team = 1 then w.scene.first_team else w.scene.second_team
  let can_shoot : Bool :=
    if (w.player self).team = 1 then
      decide ((w.player self).position.x > c.CENTER_X + c.PITCH_W / 6)
    else
      decide ((w.player self).position.x < c.CENTER_X - c.PITCH_W / 6)
  if can_shoot then
    shoot c L (rnd 0) self w
      (if (w.player self).team = 1 then c.PITCH_X + c.PITCH_W else c.PITCH_X)
  else
    let leader := decide_kick_loop w self current_team c.PLAYER_COUNT self
    if leader ≠ self then
      pass c L self leader w
    else
      let random := rnd 0 % c.PLAYER_COUNT
      match current_team.players random with
      | some receiver =>
        if receiver ≠ self then pass c L self receiver w
        else
          shoot c L (rnd 1) self w
            (if (w.player self).team = 1 then c.PITCH_X + c.PITCH_W else c.PITCH_X)
      | none =>
        shoot c L (rnd 1) self w
          (if (w.player self).team = 1 then c.PITCH_X + c.PITCH_W else c.PITCH_X)

/-! ## Per-role logic functions (`coach.c`) -/

/-- Embeds `void movement_logic_1_0(struct Player *self, struct Scene *scene)`. -/
def movement_logic_1_0 (c : Constants) (L : Libm) (self : PlayerId) (w : World) : World :=
  let opponent_has_ball : Bool :=
    match w.scene.ball.possessor with
    | some possessor => decide ((w.player possessor).team ≠ (w.player self).team)
    | none => false
  if opponent_has_ball then
    if (w.player self).team = 1 then
      if w.scene.ball.position.x > c.CENTER_X then pressing_movement c L self w 1
      else pressing_movement c L self w (2 / 5)
    else
      if w.scene.ball.position.x < c.CENTER_X then pressing_movement c L self w 1
      else pressing_movement c L self w (2 / 5)
  else
    attacking_movement c L self w 1

/-- Embeds `void movement_logic_1_1(struct Player *self, struct Scene *scene)`. -/
def movement_logic_1_1 (c : Constants) (L : Libm) (self : PlayerId) (w : World) : World :=
  let opponent_has_ball : Bool :=
    match w.scene.ball.possessor with
    | some possessor => decide ((w.player possessor).team ≠ (w.player self).team)
    | none => false
  if opponent_has_ball then pressing_movement c L self w 1
  else attacking_movement c L self w (4 / 5)

/-- Embeds `void movement_logic_1_2(struct Player *self, struct Scene *scene)`. -/
def movement_logic_1_2 (c : Constants) (L : Libm) (self : PlayerId) (w : World) : World :=
  let opponent_has_ball : Bool :=
    match w.scene.ball.possessor with
    | some possessor => decide ((w.player possessor).team ≠ (w.player self).team)
    | none => false
  if opponent_has_ball then
    if (w.player self).team = 1 then
      if w.scene.ball.position.x < c.CENTER_X then pressing_movement c L self w 1
      else pressing_movement c L self w (1 / 4)
    else
      if w.scene.ball.position.x > c.CENTER_X then pressing_movement c L self w 1
      else pressing_movement c L self w (1 / 4)
  else
    attacking_movement c L self w (1 / 2)

/-- Embeds `void movement_logic_1_3(struct Player *self, struct Scene *scene)`. -/
def movement_logic_1_3 (c : Constants) (L : Libm) (self : PlayerId) (w : World) : World :=
  gk_movement c L self w

/-- Embeds `void movement_logic_1_4(struct Player *self, struct Scene *scene)`. -/
def movement_logic_1_4 (c : Constants) (L : Libm) (self : PlayerId) (w : World) : World :=
  movement_logic_1_2 c L self w

/-- Embeds `void movement_logic_1_5(struct Player *self, struct Scene *scene)`. -/
def movement_logic_1_5 (c : Constants) (L : Libm) (self : PlayerId) (w : World) : World :=
  movement_logic_1_1 c L self w

/-- Embeds `void movement_logic_2_0(struct Player *self, struct Scene *scene)`. -/
def movement_logic_2_0 (c : Constants) (L : Libm) (self : PlayerId) (w : World) : World :=
  movement_logic_1_0 c L self w

/-- Embeds `void movement_logic_2_1(struct Player *self, struct Scene *scene)`. -/
def movement_logic_2_1 (c : Constants) (L : Libm) (self : PlayerId) (w : World) : World :=
  movement_logic_1_1 c L self w

/-- Embeds `void movement_logic_2_2(struct Player *self, struct Scene *scene)`. -/
def movement_logic_2_2 (c : Constants) (L : Libm) (self : PlayerId) (w : World) : World :=
  movement_logic_1_2 c L self w

/-- Embeds `void movement_logic_2_3(struct Player *self, struct Scene *scene)`. -/
def movement_logic_2_3 (c : Constants) (L : Libm) (self : PlayerId) (w : World) : World :=
  movement_logic_1_3 c L self w

/-- Embeds `void movement_logic_2_4(struct Player *self, struct Scene *scene)`. -/
def movement_logic_2_4 (c : Constants) (L : Libm) (self : PlayerId) (w : World) : World :=
  movement_logic_1_4 c L self w

/-- Embeds `void movement_logic_2_5(struct Player *self, struct Scene *scene)`. -/
def movement_logic_2_5 (c : Constants) (L : Libm) (self : PlayerId) (w : World) : World :=
  movement_logic_1_5 c L self w

/-- Embeds `void shooting_logic_1_0(struct Player *self, struct Scene *scene)`. -/
def shooting_logic_1_0 (c : Constants) (L : Libm) (rnd : Nat → Nat) (self : PlayerId)
    (w : World) : World :=
  decide_kick c L rnd self w

/-- Embeds `void shooting_logic_1_1(struct Player *self, struct Scene *scene)`. -/
def shooting_logic_1_1 (c : Constants) (L : Libm) (rnd : Nat → Nat) (self : PlayerId)
    (w : World) : World :=
  decide_kick c L rnd self w

/-- Embeds `void shooting_logic_1_2(struct Player *self, struct Scene *scene)`. -/
def shooting_logic_1_2 (c : Constants) (L : Libm) (rnd : Nat → Nat) (self : PlayerId)
    (w : World) : World :=
  decide_kick c L rnd self w

/-- Embeds `void shooting_logic_1_3(struct Player *self, struct Scene *scene)`. -/
def shooting_logic_1_3 (c : Constants) (L : Libm) (rnd : Nat → Nat) (self : PlayerId)
    (w : World) : World :=
  decide_kick c L rnd self w

/-- Embeds `void shooting_logic_1_4(struct Player *self, struct Scene *scene)`. -/
def shooting_logic_1_4 (c : Constants) (L : Libm) (rnd : Nat → Nat) (self : PlayerId)
    (w : World) : World :=
  decide_kick c L rnd self w

/-- Embeds `void shooting_logic_1_5(struct Player *self, struct Scene *scene)`. -/
def shooting_logic_1_5 (c : Constants) (L : Libm) (rnd : Nat → Nat) (self : PlayerId)
    (w : World) : World :=
  decide_kick c L rnd self w

/-- Embeds `void shooting_logic_2_0(struct Player *self, struct Scene *scene)`. -/
def shooting_logic_2_0 (c : Constants) (L : Libm) (rnd : Nat → Nat) (self : PlayerId)
    (w : World) : World :=
  decide_kick c L rnd self w

/-- Embeds `void shooting_logic_2_1(struct Player *self, struct Scene *scene)`. -/
def shooting_logic_2_1 (c : Constants) (L : Libm) (rnd : Nat → Nat) (self : PlayerId)
    (w : World) : World :=
  decide_kick c L rnd self w

/-- Embeds `void shooting_logic_2_2(struct Player *self, struct Scene *scene)`. -/
def shooting_logic_2_2 (c : Constants) (L : Libm) (rnd : Nat → Nat) (self : PlayerId)
    (w : World) : World :=
  decide_kick c L rnd self w

/-- Embeds `void shooting_logic_2_3(struct Player *self, struct Scene *scene)`. -/
def shooting_logic_2_3 (c : Constants) (L : Libm) (rnd : Nat → Nat) (self : PlayerId)
    (w : World) : World :=
  decide_kick c L rnd self w

/-- Embeds `void shooting_logic_2_4(struct Player *self, struct Scene *scene)`. -/
def shooting_logic_2_4 (c : Constants) (L : Libm) (rnd : Nat → Nat) (self : PlayerId)
    (w : World) : World :=
  decide_kick c L rnd self w

/-- Embeds `void shooting_logic_2_5(struct Player *self, struct Scene *scene)`. -/
def shooting_logic_2_5 (c : Constants) (L : Libm) (rnd : Nat → Nat) (self : PlayerId)
    (w : World) : World :=
  decide_kick c L rnd self w

/-- Embeds `void change_state_logic_1_0(struct Player *self, struct Scene *scene)`. -/
def change_state_logic_1_0 (self : PlayerId) (w : World) : World :=
  change_stater self w

/-- Embeds `void change_state_logic_1_1(struct Player *self, struct Scene *scene)`. -/
def change_state_logic_1_1 (self : PlayerId) (w : World) : World :=
  change_stater self w

/-- Embeds `void change_state_logic_1_2(struct Player *self, struct Scene *scene)`. -/
def change_state_logic_1_2 (self : PlayerId) (w : World) : World :=
  change_stater self w

/-- Embeds `void change_state_logic_1_3(struct Player *self, struct Scene *scene)`. -/
def change_state_logic_1_3 (self : PlayerId) (w : World) : World :=
  change_stater self w

/-- Embeds `void change_state_logic_1_4(struct Player *self, struct Scene *scene)`. -/
def change_state_logic_1_4 (self : PlayerId) (w : World) : World :=
  change_stater self w

/-- Embeds `void change_state_logic_1_5(struct Player *self, struct Scene *scene)`. -/
def change_state_logic_1_5 (self : PlayerId) (w : World) : World :=
  change_stater self w

/-- Embeds `void change_state_logic_2_0(struct Player *self, struct Scene *scene)`. -/
def change_state_logic_2_0 (self : PlayerId) (w : World) : World :=
  change_stater self w

/-- Embeds `void change_state_logic_2_1(struct Player *self, struct Scene *scene)`. -/
def change_state_logic_2_1 (self : PlayerId) (w : World) : World :=
  change_stater self w

/-- Embeds `void change_state_logic_2_2(struct Player *self, struct Scene *scene)`. -/
def change_state_logic_2_2 (self : PlayerId) (w : World) : World :=
  change_stater self w

/-- Embeds `void change_state_logic_2_3(struct Player *self, struct Scene *scene)`. -/
def change_state_logic_2_3 (self : PlayerId) (w : World) : World :=
  change_stater self w

/-- Embeds `void change_state_logic_2_4(struct Player *self, struct Scene *scene)`. -/
def change_state_logic_2_4 (self : PlayerId) (w : World) : World :=
  change_stater self w

/-- Embeds `void change_state_logic_2_5(struct Player *self, struct Scene *scene)`. -/
def change_state_logic_2_5 (self : PlayerId) (w : World) : World :=
  change_stater self w

/-! ## Lookup tables and factory functions (`coach.c`) -/

/-- A `PlayerLogicFn` value: a pointer to one of the logic functions above, kept as the
name of the function it points to. -/
inductive PlayerLogicFn where
  | movement_logic_1_0
  | movement_logic_1_1
  | movement_logic_1_2
  | movement_logic_1_3
  | movement_logic_1_4
  | movement_logic_1_5
  | movement_logic_2_0
  | movement_logic_2_1
  | movement_logic_2_2
  | movement_logic_2_3
  | movement_logic_2_4
  | movement_logic_2_5
  | shooting_logic_1_0
  | shooting_logic_1_1
  | shooting_logic_1_2
  | shooting_logic_1_3
  | shooting_logic_1_4
  | shooting_logic_1_5
  | shooting_logic_2_0
  | shooting_logic_2_1
  | shooting_logic_2_2
  | shooting_logic_2_3
  | shooting_logic_2_4
  | shooting_logic_2_5
  | change_state_logic_1_0
  | change_state_logic_1_1
  | change_state_logic_1_2
  | change_state_logic_1_3
  | change_state_logic_1_4
  | change_state_logic_1_5
  | change_state_logic_2_0
  | change_state_logic_2_1
  | change_state_logic_2_2
  | change_state_logic_2_3
  | change_state_logic_2_4
  | change_state_logic_2_5
deriving DecidableEq

/-- The call through a `PlayerLogicFn` pointer; `rnd k` is the value the `k`-th call of
`rand()` made during the call returns. -/
def PlayerLogicFn.call (c : Constants) (L : Libm) (rnd : Nat → Nat) :
    PlayerLogicFn → PlayerId → World → World
  | .movement_logic_1_0 => Soccer.movement_logic_1_0 c L
  | .movement_logic_1_1 => Soccer.movement_logic_1_1 c L
  | .movement_logic_1_2 => Soccer.movement_logic_1_2 c L
  | .movement_logic_1_3 => Soccer.movement_logic_1_3 c L
  | .movement_logic_1_4 => Soccer.movement_logic_1_4 c L
  | .movement_logic_1_5 => Soccer.movement_logic_1_5 c L
  | .movement_logic_2_0 => Soccer.movement_logic_2_0 c L
  | .movement_logic_2_1 => Soccer.movement_logic_2_1 c L
  | .movement_logic_2_2 => Soccer.movement_logic_2_2 c L
  | .movement_logic_2_3 => Soccer.movement_logic_2_3 c L
  | .movement_logic_2_4 => Soccer.movement_logic_2_4 c L
  | .movement_logic_2_5 => Soccer.movement_logic_2_5 c L
  | .shooting_logic_1_0 => Soccer.shooting_logic_1_0 c L rnd
  | .shooting_logic_1_1 => Soccer.shooting_logic_1_1 c L rnd
  | .shooting_logic_1_2 => Soccer.shooting_logic_1_2 c L rnd
  | .shooting_logic_1_3 => Soccer.shooting_logic_1_3 c L rnd
  | .shooting_logic_1_4 => Soccer.shooting_logic_1_4 c L rnd
  | .shooting_logic_1_5 => Soccer.shooting_logic_1_5 c L rnd
  | .shooting_logic_2_0 => Soccer.shooting_logic_2_0 c L rnd
  | .shooting_logic_2_1 => Soccer.shooting_logic_2_1 c L rnd
  | .shooting_logic_2_2 => Soccer.shooting_logic_2_2 c L rnd
  | .shooting_logic_2_3 => Soccer.shooting_logic_2_3 c L rnd
  | .shooting_logic_2_4 => Soccer.shooting_logic_2_4 c L rnd
  | .shooting_logic_2_5 => Soccer.shooting_logic_2_5 c L rnd
  | .change_state_logic_1_0 => Soccer.change_state_logic_1_0
  | .change_state_logic_1_1 => Soccer.change_state_logic_1_1
  | .change_state_logic_1_2 => Soccer.change_state_logic_1_2
  | .change_state_logic_1_3 => Soccer.change_state_logic_1_3
  | .change_state_logic_1_4 => Soccer.change_state_logic_1_4
  | .change_state_logic_1_5 => Soccer.change_state_logic_1_5
  | .change_state_logic_2_0 => Soccer.change_state_logic_2_0
  | .change_state_logic_2_1 => Soccer.change_state_logic_2_1
  | .change_state_logic_2_2 => Soccer.change_state_logic_2_2
  | .change_state_logic_2_3 => Soccer.change_state_logic_2_3
  | .change_state_logic_2_4 => Soccer.change_state_logic_2_4
  | .change_state_logic_2_5 => Soccer.change_state_logic_2_5

/-- Embeds `static PlayerLogicFn team1_movement[6]`. -/
def team1_movement : List PlayerLogicFn :=
  [.movement_logic_1_0, .movement_logic_1_1, .movement_logic_1_2,
    .movement_logic_1_3, .movement_logic_1_4, .movement_logic_1_5]

/-- Embeds `static PlayerLogicFn team2_movement[6]`. -/
def team2_movement : List PlayerLogicFn :=
  [.movement_logic_2_0, .movement_logic_2_1, .movement_logic_2_2,
    .movement_logic_2_3, .movement_logic_2_4, .movement_logic_2_5]

/-- Embeds `static PlayerLogicFn team1_shooting[6]`. -/
def team1_shooting : List PlayerLogicFn :=
  [.shooting_logic_1_0, .shooting_logic_1_1, .shooting_logic_1_2,
    .shooting_logic_1_3, .shooting_logic_1_4, .shooting_logic_1_5]

/-- Embeds `static PlayerLogicFn team2_shooting[6]`. -/
def team2_shooting : List PlayerLogicFn :=
  [.shooting_logic_2_0, .shooting_logic_2_1, .shooting_logic_2_2,
    .shooting_logic_2_3, .shooting_logic_2_4, .shooting_logic_2_5]

/-- Embeds `static PlayerLogicFn team1_change_state[6]`. -/
def team1_change_state : List PlayerLogicFn :=
  [.change_state_logic_1_0, .change_state_logic_1_1, .change_state_logic_1_2,
    .change_state_logic_1_3, .change_state_logic_1_4, .change_state_logic_1_5]

/-- Embeds `static PlayerLogicFn team2_change_state[6]`. -/
def team2_change_state : List PlayerLogicFn :=
  [.change_state_logic_2_0, .change_state_logic_2_1, .change_state_logic_2_2,
    .change_state_logic_2_3, .change_state_logic_2_4, .change_state_logic_2_5]

/-- The read `table[kit]` of a C array; `none` when `kit` is outside the array. -/
def tableAt {α : Type} (table : List α) (kit : Int) : Option α :=
  if 0 ≤ kit then table[kit.toNat]? else none

/-- Embeds `PlayerLogicFn get_movement_logic(int team, int kit)`; the global
`coach_both_teams` is the first argument. -/
def get_movement_logic (coach_both_teams : Bool) (team kit : Int) : Option PlayerLogicFn :=
  if coach_both_teams then tableAt team1_movement kit
  else if team = 1 then tableAt team1_movement kit else tableAt team2_movement kit

/-- Embeds `PlayerLogicFn get_shooting_logic(int team, int kit)`. -/
def get_shooting_logic (coach_both_teams : Bool) (team kit : Int) : Option PlayerLogicFn :=
  if coach_both_teams then tableAt team1_shooting kit
  else if team = 1 then tableAt team1_shooting kit else tableAt team2_shooting kit

/-- Embeds `PlayerLogicFn get_change_state_logic(int team, int kit)`. -/
def get_change_state_logic (coach_both_teams : Bool) (team kit : Int) :
    Option PlayerLogicFn :=
  if coach_both_teams then tableAt team1_change_state kit
  else if team = 1 then tableAt team1_change_state kit else tableAt team2_change_state kit

/-- Embeds `static struct Talents team1_talents[6]`. -/
def team1_talents : List Talents :=
  [⟨1, 6, 6, 7⟩, ⟨3, 5, 7, 5⟩, ⟨7, 4, 3, 3⟩, ⟨7, 3, 3, 7⟩, ⟨7, 4, 3, 3⟩, ⟨3, 6, 6, 5⟩]

/-- Embeds `static struct Talents team2_talents[6]`. -/
def team2_talents : List Talents :=
  [⟨1, 6, 6, 7⟩, ⟨3, 5, 7, 5⟩, ⟨7, 4, 3, 3⟩, ⟨7, 3, 3, 7⟩, ⟨7, 4, 3, 3⟩, ⟨3, 6, 6, 5⟩]

/-- Embeds `struct Talents get_talents(int team, int kit)`. -/
def get_talents (coach_both_teams : Bool) (team kit : Int) : Option Talents :=
  if coach_both_teams then tableAt team1_talents kit
  else if team = 1 then tableAt team1_talents kit else tableAt team2_talents kit

/-! ## Notions of the specification -/

/-- The spec's "strictly further forward": `a` is further forward than `b` when it is
greater, for a shooter of team 1, and when it is smaller, for a shooter of the other
team. -/
def furtherForward (team : Int) (a b : ℚ) : Prop :=
  if team = 1 then a > b else a < b

instance furtherForward.decidable (team : Int) (a b : ℚ) :
    Decidable (furtherForward team a b) := by
  unfold furtherForward
  infer_instance

/-- The frame of a movement logic: between `w` and `w'` the scene (both teams and the
ball) and every other player object are the same, and the player object at `self`
differs at most in its velocity. -/
def ChangesOnlyVelocityOf (self : PlayerId) (w w' : World) : Prop :=
  w'.scene = w.scene ∧ (∀ q, q ≠ self → w'.player q = w.player q) ∧
    w'.player self = { w.player self with velocity := (w'.player self).velocity }

/-- The frame of a shooting logic: between `w` and `w'` every player object and both
teams are the same, and the ball differs at most in its velocity. -/
def ChangesOnlyBallVelocity (w w' : World) : Prop :=
  w'.player = w.player ∧ w'.scene.first_team = w.scene.first_team ∧
    w'.scene.second_team = w.scene.second_team ∧
    w'.scene.ball = { w.scene.ball with velocity := w'.scene.ball.velocity }

/-- The frame of a change-state logic: between `w` and `w'` the scene (both teams and
the ball) and every other player object are the same, and the player object at `self`
differs at most in its state. -/
def ChangesOnlyStateOf (self : PlayerId) (w w' : World) : Prop :=
  w'.scene = w.scene ∧ (∀ q, q ≠ self → w'.player q = w.player q) ∧
    w'.player self = { w.player self with state := (w'.player self).state }

/-- The library's `hypotf` never returns less than the Euclidean norm: its value is
not negative and its square is at least `x * x + y * y`.  The exact norm is such a
function. -/
def Libm.NeverUnderestimates (L : Libm) : Prop :=
  ∀ x y : ℚ, 0 ≤ L.hypotf x y ∧ x * x + y * y ≤ L.hypotf x y * L.hypotf x y

/-! ## Concrete inputs

Values at which the theorems below are instantiated.  The constants are a realistic
pitch; nothing is proved from these particular numbers except the instances. -/

/-- A pitch of 1000 by 600 with a goal mouth of 150 and talents capped at 10. -/
def samplePitch : Constants where
  PITCH_X := 25
  PITCH_Y := 25
  PITCH_W := 1000
  PITCH_H := 600
  CENTER_X := 525
  CENTER_Y := 325
  GOAL_HEIGHT := 150
  BALL_RADIUS := 8
  PLAYER_RADIUS := 15
  MAX_PLAYER_VELOCITY := 4
  MAX_BALL_VELOCITY := 10
  MAX_TALENT_PER_SKILL := 10
  MAX_TALENT_PER_PLAYER := 20
  PLAYER_COUNT := 6

/-- A team with no goal and an empty roster. -/
def emptyTeam : Team := { score := 0, players := fun _ => none }

/-- A scene with a free, resting ball at the given position. -/
def sceneWithBallAt (x y : ℚ) : Scene :=
  { first_team := emptyTeam, second_team := emptyTeam,
    ball := { position := ⟨x, y⟩, velocity := ⟨0, 0⟩, radius := 8, possessor := none } }

/-- A player of team 1 at the origin with the given agility and shooting talents and
the given velocity. -/
def playerWith (agility shooting : Int) (v : Vec2) : Player :=
  { team := 1, kit := 0, position := ⟨0, 0⟩, velocity := v, radius := 15,
    talents := { defence := 1, agility := agility, dribbling := 1, shooting := shooting },
    state := PlayerState.MOVING }

/-- A ball at the origin held by the player at address 0, with the given velocity. -/
def heldBall (v : Vec2) : Ball :=
  { position := ⟨0, 0⟩, velocity := v, radius := 8, possessor := some 0 }

/-- A world whose player objects all have radius `r` and sit at the origin, with a
free ball of radius 8 at `(3, 4)`. -/
def worldWithRadius (r : ℚ) : World :=
  { player := fun _ => { playerWith 5 5 ⟨0, 0⟩ with radius := r },
    scene := sceneWithBallAt 3 4 }

/-- A C library whose `hypotf x y` is the rational square root of `x * x + y * y`
(the Euclidean norm whenever that is a rational number) and whose `rand()` ranges up to
32767. -/
def sampleLibm : Libm :=
  { hypotf := fun x y => Rat.sqrt (x * x + y * y), RAND_MAX := 32767 }

/-- A world whose player objects all are on the given team at the given position, with
talents `(1, 5, 1, shooting)`, and whose ball is free at `(3, 4)`. -/
def worldWithPlayerAt (team : Int) (shooting : Int) (pos : Vec2) : World :=
  { player := fun _ => { playerWith 5 shooting ⟨0, 0⟩ with team := team, position := pos },
    scene := sceneWithBallAt 3 4 }

/-- A world with four players of team 1: the shooter 0 at `(300, 325)`, and 1 at
`(400, 300)`, 2 at `(500, 400)`, 3 at `(500, 200)`; the roster of the first team holds
them in slots 0 to 3, and slots 4 and 5 are empty. -/
def passWorld : World :=
  { player := fun q =>
      { playerWith 5 5 ⟨0, 0⟩ with
        position :=
          if q = 0 then ⟨300, 325⟩ else if q = 1 then ⟨400, 300⟩
          else if q = 2 then ⟨500, 400⟩ else ⟨500, 200⟩ },
    scene :=
      { first_team := { score := 0, players := fun i => if i < 4 then some i else none },
        second_team := emptyTeam,
        ball := { position := ⟨300, 325⟩, velocity := ⟨0, 0⟩, radius := 8,
                  possessor := some 0 } } }

/-- A C library whose `hypotf x y` is the Euclidean norm of `(x, y)` whenever that is
a rational number, and the upper bound `|x| + |y|` otherwise. -/
def upperLibm : Libm :=
  { hypotf := fun x y =>
      if Rat.sqrt (x * x + y * y) * Rat.sqrt (x * x + y * y) = x * x + y * y then
        Rat.sqrt (x * x + y * y)
      else |x| + |y|,
    RAND_MAX := 32767 }

/-! ## Shared lemmas on the referee -/

theorem wrapInt32_of_range (n : Int) (h1 : -2147483648 ≤ n) (h2 : n < 2147483648) :
    wrapInt32 n = n := by
  unfold wrapInt32
  omega

theorem le_wrapInt32_succ (n : Int) (h : n < 2147483647) : n ≤ wrapInt32 (n + 1) := by
  unfold wrapInt32
  omega

theorem goal_fst_eq_one (c : Constants) (x y : ℚ) :
    (goal c x y).1 = 1 ↔
      (y - c.BALL_RADIUS ≥ c.CENTER_Y - c.GOAL_HEIGHT / 2 ∧
        y + c.BALL_RADIUS ≤ c.CENTER_Y + c.GOAL_HEIGHT / 2) ∧
      x - c.BALL_RADIUS > c.PITCH_X + c.PITCH_W := by
  unfold goal
  simp only []
  split_ifs with h1 h2 <;> simp_all

theorem goal_fst_eq_two (c : Constants) (x y : ℚ) :
    (goal c x y).1 = 2 ↔
      (y - c.BALL_RADIUS ≥ c.CENTER_Y - c.GOAL_HEIGHT / 2 ∧
        y + c.BALL_RADIUS ≤ c.CENTER_Y + c.GOAL_HEIGHT / 2) ∧
      ¬ (x - c.BALL_RADIUS > c.PITCH_X + c.PITCH_W) ∧
      x + c.BALL_RADIUS < c.PITCH_X := by
  unfold goal
  simp only []
  split_ifs with h1 h2 <;> simp_all

theorem out_fst_eq_true (c : Constants) (x y : ℚ) :
    (out c x y).1 = true ↔
      (x + c.BALL_RADIUS < c.PITCH_X ∨ x - c.BALL_RADIUS > c.PITCH_X + c.PITCH_W ∨
        y + c.BALL_RADIUS < c.PITCH_Y ∨ y - c.BALL_RADIUS > c.PITCH_Y + c.PITCH_H) := by
  unfold out
  simp only []
  split_ifs with h <;> simp_all [or_assoc]

theorem referee_goal_iff_rule (c : Constants) (scene : Scene) :
    (referee c scene).1 = Event.GOAL ↔
      (scene.ball.position.y - c.BALL_RADIUS ≥ c.CENTER_Y - c.GOAL_HEIGHT / 2 ∧
        scene.ball.position.y + c.BALL_RADIUS ≤ c.CENTER_Y + c.GOAL_HEIGHT / 2) ∧
      (scene.ball.position.x - c.BALL_RADIUS > c.PITCH_X + c.PITCH_W ∨
        scene.ball.position.x + c.BALL_RADIUS < c.PITCH_X) := by
  have h1 := goal_fst_eq_one c scene.ball.position.x scene.ball.position.y
  have h2 := goal_fst_eq_two c scene.ball.position.x scene.ball.position.y
  unfold referee
  simp only []
  split_ifs with g1 g2 g3
  · have := h1.mp g1
    simp only [true_iff]
    exact ⟨this.1, Or.inl this.2⟩
  · have := h2.mp g2
    simp only [true_iff]
    exact ⟨this.1, Or.inr this.2.2⟩
  · simp only [reduceCtorEq, false_iff]
    rintro ⟨hm, hr | hl⟩
    · exact g1 (h1.mpr ⟨hm, hr⟩)
    · by_cases hr : scene.ball.position.x - c.BALL_RADIUS > c.PITCH_X + c.PITCH_W
      · exact g1 (h1.mpr ⟨hm, hr⟩)
      · exact g2 (h2.mpr ⟨hm, hr, hl⟩)
  · simp only [reduceCtorEq, false_iff]
    rintro ⟨hm, hr | hl⟩
    · exact g1 (h1.mpr ⟨hm, hr⟩)
    · by_cases hr : scene.ball.position.x - c.BALL_RADIUS > c.PITCH_X + c.PITCH_W
      · exact g1 (h1.mpr ⟨hm, hr⟩)
      · exact g2 (h2.mpr ⟨hm, hr, hl⟩)

theorem referee_out_iff_rule (c : Constants) (scene : Scene) :
    (referee c scene).1 = Event.OUT ↔
      (referee c scene).1 ≠ Event.GOAL ∧ (out c scene.ball.position.x scene.ball.position.y).1 = true := by
  unfold referee
  simp only []
  split_ifs with g1 g2 g3 <;> simp_all

theorem referee_play_on_iff_rule (c : Constants) (scene : Scene) :
    (referee c scene).1 = Event.PLAY_ON ↔
      (referee c scene).1 ≠ Event.GOAL ∧ (out c scene.ball.position.x scene.ball.position.y).1 = false := by
  unfold referee
  simp only []
  split_ifs with g1 g2 g3 <;> simp_all

/-! ## Shared lemmas on the velocity clamp -/

theorem abs_clamp_le {v m : ℚ} (hm : 0 ≤ m) :
    |(if |v| > m then (if v > 0 then m else -m) else v)| ≤ m := by
  split_ifs with h1 h2
  · rw [abs_of_nonneg hm]
  · rw [abs_neg, abs_of_nonneg hm]
  · exact not_lt.mp h1

theorem not_abs_le_of_neg {v m : ℚ} (hm : m < 0) : ¬ |v| ≤ m := by
  intro h
  have := abs_nonneg v
  linarith

theorem talent_cap_nonneg_iff (a T : Int) (V : ℚ) (hT : 0 < T) (hV : 0 < V) :
    0 ≤ ((a : ℚ) / (T : ℚ)) * V ↔ 0 ≤ a := by
  have hT' : (0 : ℚ) < (T : ℚ) := by exact_mod_cast hT
  rw [mul_nonneg_iff_of_pos_right hV, div_nonneg_iff]
  constructor
  · rintro (⟨h, _⟩ | ⟨_, h⟩)
    · exact_mod_cast h
    · linarith
  · intro h
    exact Or.inl ⟨by exact_mod_cast h, hT'.le⟩

theorem verify_movement_velocity_x (c : Constants) (player : Player) :
    (verify_movement c player).1.velocity.x =
      if |player.velocity.x| >
          ((player.talents.agility : ℚ) / (c.MAX_TALENT_PER_SKILL : ℚ)) * c.MAX_PLAYER_VELOCITY
      then
        (if player.velocity.x > 0 then
          ((player.talents.agility : ℚ) / (c.MAX_TALENT_PER_SKILL : ℚ)) * c.MAX_PLAYER_VELOCITY
        else
          -(((player.talents.agility : ℚ) / (c.MAX_TALENT_PER_SKILL : ℚ)) * c.MAX_PLAYER_VELOCITY))
      else player.velocity.x := by
  unfold verify_movement
  simp only []
  split_ifs <;> rfl

theorem verify_movement_velocity_y (c : Constants) (player : Player) :
    (verify_movement c player).1.velocity.y =
      if |player.velocity.y| >
          ((player.talents.agility : ℚ) / (c.MAX_TALENT_PER_SKILL : ℚ)) * c.MAX_PLAYER_VELOCITY
      then
        (if player.velocity.y > 0 then
          ((player.talents.agility : ℚ) / (c.MAX_TALENT_PER_SKILL : ℚ)) * c.MAX_PLAYER_VELOCITY
        else
          -(((player.talents.agility : ℚ) / (c.MAX_TALENT_PER_SKILL : ℚ)) * c.MAX_PLAYER_VELOCITY))
      else player.velocity.y := by
  unfold verify_movement
  simp only []
  split_ifs <;> simp_all

theorem verify_shoot_fst_kickoff (c : Constants) (mem : PlayerId → Player) (ball : Ball)
    (kickoff : Bool) :
    (verify_shoot c mem ball kickoff).1 = (verify_shoot c mem ball false).1 := by
  unfold verify_shoot
  split
  · rfl
  · cases kickoff
    · rfl
    · simp only [if_true, Bool.false_eq_true, if_false]
      rw [apply_ite Prod.fst, ite_self]

theorem verify_shoot_velocity_x (c : Constants) (mem : PlayerId → Player) (ball : Ball)
    (pid : PlayerId) (hp : ball.possessor = some pid) (kickoff : Bool) :
    (verify_shoot c mem ball kickoff).1.velocity.x =
      if |ball.velocity.x| >
          c.MAX_BALL_VELOCITY * (((mem pid).talents.shooting : ℚ) / (c.MAX_TALENT_PER_SKILL : ℚ))
      then
        (if ball.velocity.x > 0 then
          c.MAX_BALL_VELOCITY * (((mem pid).talents.shooting : ℚ) / (c.MAX_TALENT_PER_SKILL : ℚ))
        else
          -(c.MAX_BALL_VELOCITY * (((mem pid).talents.shooting : ℚ) / (c.MAX_TALENT_PER_SKILL : ℚ))))
      else ball.velocity.x := by
  rw [verify_shoot_fst_kickoff]
  unfold verify_shoot
  simp only [hp]
  split_ifs <;> simp_all

theorem verify_shoot_velocity_y (c : Constants) (mem : PlayerId → Player) (ball : Ball)
    (pid : PlayerId) (hp : ball.possessor = some pid) (kickoff : Bool) :
    (verify_shoot c mem ball kickoff).1.velocity.y =
      if |ball.velocity.y| >
          c.MAX_BALL_VELOCITY * (((mem pid).talents.shooting : ℚ) / (c.MAX_TALENT_PER_SKILL : ℚ))
      then
        (if ball.velocity.y > 0 then
          c.MAX_BALL_VELOCITY * (((mem pid).talents.shooting : ℚ) / (c.MAX_TALENT_PER_SKILL : ℚ))
        else
          -(c.MAX_BALL_VELOCITY * (((mem pid).talents.shooting : ℚ) / (c.MAX_TALENT_PER_SKILL : ℚ))))
      else ball.velocity.y := by
  rw [verify_shoot_fst_kickoff]
  unfold verify_shoot
  simp only [hp]
  split_ifs <;> simp_all

/-! ## Shared lemmas on the state decision -/

theorem change_stater_state_eq (self : PlayerId) (w : World) :
    ((change_stater self w).player self).state =
      (if w.scene.ball.possessor = some self then PlayerState.SHOOTING
        else if ((w.player self).position.x - w.scene.ball.position.x) *
              ((w.player self).position.x - w.scene.ball.position.x) +
            ((w.player self).position.y - w.scene.ball.position.y) *
              ((w.player self).position.y - w.scene.ball.position.y) ≤
            ((w.player self).radius + w.scene.ball.radius) *
              ((w.player self).radius + w.scene.ball.radius)
          then PlayerState.INTERCEPTING
        else PlayerState.MOVING) := by
  unfold change_stater World.setState player_ball_colliding
  simp only [Function.update_same, decide_eq_true_eq]
  split_ifs <;> simp

/-! ## Referee: goal, out of bounds, score -/

/-- C1: `referee` returns GOAL exactly when the ball's y-span lies inside the goal
mouth and the whole ball is past the right or the left goal line.  On a pitch at least
as wide as 0.01 minus a ball diameter, a ball at `x = right_line + BALL_RADIUS - 0.01`
is never GOAL; when the ball fits the goal mouth, a ball at
`x = right_line + BALL_RADIUS + 0.01` with `y` at the centre of the mouth is GOAL. -/
theorem referee_goal_iff (c : Constants)
    (hw : 1 / 100 ≤ c.PITCH_W + 2 * c.BALL_RADIUS)
    (hg : 2 * c.BALL_RADIUS ≤ c.GOAL_HEIGHT) :
    (∀ scene : Scene, (referee c scene).1 = Event.GOAL ↔
      (scene.ball.position.y - c.BALL_RADIUS ≥ c.CENTER_Y - c.GOAL_HEIGHT / 2 ∧
        scene.ball.position.y + c.BALL_RADIUS ≤ c.CENTER_Y + c.GOAL_HEIGHT / 2) ∧
      (scene.ball.position.x - c.BALL_RADIUS > c.PITCH_X + c.PITCH_W ∨
        scene.ball.position.x + c.BALL_RADIUS < c.PITCH_X)) ∧
    (∀ scene : Scene,
      scene.ball.position.x = c.PITCH_X + c.PITCH_W + c.BALL_RADIUS - 1 / 100 →
        (referee c scene).1 ≠ Event.GOAL) ∧
    (∀ scene : Scene,
      scene.ball.position.x = c.PITCH_X + c.PITCH_W + c.BALL_RADIUS + 1 / 100 →
      scene.ball.position.y = c.CENTER_Y →
        (referee c scene).1 = Event.GOAL) := by
  refine ⟨fun scene => referee_goal_iff_rule c scene, ?_, ?_⟩
  · intro scene hx hgoal
    rcases (referee_goal_iff_rule c scene).mp hgoal with ⟨_, hr | hl⟩
    · rw [hx] at hr; linarith
    · rw [hx] at hl; linarith
  · intro scene hx hy
    rw [referee_goal_iff_rule, hx, hy]
    refine ⟨⟨?_, ?_⟩, Or.inl ?_⟩ <;> linarith

/-- C1 at a concrete input: on the sample pitch the ball at
`(1025 + 8 + 0.01, 325)` is a goal. -/
theorem referee_goal_iff_witness :
    ((1 : ℚ) / 100 ≤ samplePitch.PITCH_W + 2 * samplePitch.BALL_RADIUS ∧
      2 * samplePitch.BALL_RADIUS ≤ samplePitch.GOAL_HEIGHT) ∧
    (referee samplePitch (sceneWithBallAt (1025 + 8 + 1 / 100) 325)).1 = Event.GOAL :=
  ⟨⟨by norm_num [samplePitch], by norm_num [samplePitch]⟩,
    (referee_goal_iff samplePitch (by norm_num [samplePitch]) (by norm_num [samplePitch])).2.2
      (sceneWithBallAt (1025 + 8 + 1 / 100) 325)
      (by norm_num [samplePitch, sceneWithBallAt])
      (by norm_num [samplePitch, sceneWithBallAt])⟩

/-- C2: whenever `referee` returns GOAL on a pitch where a ball cannot be past both
goal lines at once, and both scores are `int` values below `INT_MAX`, exactly one score
changes, by exactly one: team 1's when the ball is past the right line (team 2's
unchanged), team 2's when it is past the left line (team 1's unchanged). -/
theorem referee_goal_score (c : Constants) (hw : 0 ≤ c.PITCH_W + 2 * c.BALL_RADIUS)
    (scene : Scene)
    (hs1 : -2147483648 ≤ scene.first_team.score ∧ scene.first_team.score < 2147483647)
    (hs2 : -2147483648 ≤ scene.second_team.score ∧ scene.second_team.score < 2147483647)
    (hgoal : (referee c scene).1 = Event.GOAL) :
    (scene.ball.position.x - c.BALL_RADIUS > c.PITCH_X + c.PITCH_W →
      (referee c scene).2.1.first_team.score = scene.first_team.score + 1 ∧
      (referee c scene).2.1.second_team.score = scene.second_team.score) ∧
    (scene.ball.position.x + c.BALL_RADIUS < c.PITCH_X →
      (referee c scene).2.1.second_team.score = scene.second_team.score + 1 ∧
      (referee c scene).2.1.first_team.score = scene.first_team.score) ∧
    (scene.ball.position.x - c.BALL_RADIUS > c.PITCH_X + c.PITCH_W ∨
      scene.ball.position.x + c.BALL_RADIUS < c.PITCH_X) := by
  have hrule := (referee_goal_iff_rule c scene).mp hgoal
  have h1 := goal_fst_eq_one c scene.ball.position.x scene.ball.position.y
  have h2 := goal_fst_eq_two c scene.ball.position.x scene.ball.position.y
  have hw1 : wrapInt32 (scene.first_team.score + 1) = scene.first_team.score + 1 :=
    wrapInt32_of_range _ (by omega) (by omega)
  have hw2 : wrapInt32 (scene.second_team.score + 1) = scene.second_team.score + 1 :=
    wrapInt32_of_range _ (by omega) (by omega)
  refine ⟨?_, ?_, hrule.2⟩
  · intro hr
    have g1 := h1.mpr ⟨hrule.1, hr⟩
    simp [referee, g1, hw1]
  · intro hl
    have hr : ¬ (scene.ball.position.x - c.BALL_RADIUS > c.PITCH_X + c.PITCH_W) := by
      intro hr; linarith
    have g2 := h2.mpr ⟨hrule.1, hr, hl⟩
    simp [referee, g2, hw2]

/-- C2 at a concrete input: the goal of the sample pitch's right net takes team 1
from 0 to 1 and leaves team 2 at 0. -/
theorem referee_goal_score_witness :
    (0 : ℚ) ≤ samplePitch.PITCH_W + 2 * samplePitch.BALL_RADIUS ∧
    (-2147483648 ≤ (sceneWithBallAt 1034 325).first_team.score ∧
      (sceneWithBallAt 1034 325).first_team.score < 2147483647) ∧
    (-2147483648 ≤ (sceneWithBallAt 1034 325).second_team.score ∧
      (sceneWithBallAt 1034 325).second_team.score < 2147483647) ∧
    (referee samplePitch (sceneWithBallAt 1034 325)).1 = Event.GOAL ∧
    ((referee samplePitch (sceneWithBallAt 1034 325)).2.1.first_team.score = 0 + 1 ∧
      (referee samplePitch (sceneWithBallAt 1034 325)).2.1.second_team.score = 0) :=
  ⟨by norm_num [samplePitch], by decide, by decide,
    by rw [referee_goal_iff_rule]; norm_num [samplePitch, sceneWithBallAt],
    (referee_goal_score samplePitch (by norm_num [samplePitch]) (sceneWithBallAt 1034 325)
      (by decide) (by decide)
      (by rw [referee_goal_iff_rule]; norm_num [samplePitch, sceneWithBallAt])).1
      (by norm_num [samplePitch, sceneWithBallAt])⟩

/-- C3: goal detection takes precedence over out-of-bounds.  At every ball position
that satisfies the goal rule the test `out` is true as well, and yet `referee` returns
GOAL and not OUT. -/
theorem referee_goal_before_out (c : Constants) (scene : Scene)
    (hmouth : scene.ball.position.y - c.BALL_RADIUS ≥ c.CENTER_Y - c.GOAL_HEIGHT / 2 ∧
      scene.ball.position.y + c.BALL_RADIUS ≤ c.CENTER_Y + c.GOAL_HEIGHT / 2)
    (hpast : scene.ball.position.x - c.BALL_RADIUS > c.PITCH_X + c.PITCH_W ∨
      scene.ball.position.x + c.BALL_RADIUS < c.PITCH_X) :
    (out c scene.ball.position.x scene.ball.position.y).1 = true ∧
    (referee c scene).1 = Event.GOAL ∧
    (referee c scene).1 ≠ Event.OUT := by
  have hgoal : (referee c scene).1 = Event.GOAL :=
    (referee_goal_iff_rule c scene).mpr ⟨hmouth, hpast⟩
  refine ⟨?_, hgoal, ?_⟩
  · rw [out_fst_eq_true]
    rcases hpast with hr | hl
    · exact Or.inr (Or.inl hr)
    · exact Or.inl hl
  · rw [hgoal]; decide

/-- C3 at a concrete input: the ball at `(10, 325)`, wholly past the left line of the
sample pitch and inside the goal mouth, is out by `out` and a goal by `referee`. -/
theorem referee_goal_before_out_witness :
    (out samplePitch 10 325).1 = true ∧
    (referee samplePitch (sceneWithBallAt 10 325)).1 = Event.GOAL ∧
    (referee samplePitch (sceneWithBallAt 10 325)).1 ≠ Event.OUT :=
  referee_goal_before_out samplePitch (sceneWithBallAt 10 325)
    (by norm_num [samplePitch, sceneWithBallAt])
    (by norm_num [samplePitch, sceneWithBallAt])

/-- C4: `referee` returns OUT exactly when the goal rule does not fire and the whole
ball is past one of the four pitch sides, and PLAY_ON exactly in the remaining case
(neither rule fires).  For a ball of non-negative radius whose centre has its x inside
the pitch, on a pitch at least as high as 0.01 minus a ball diameter, the ball at
`y = top_line - BALL_RADIUS + 0.01` is not OUT and the ball at
`y = top_line - BALL_RADIUS - 0.01` is OUT. -/
theorem referee_out_iff (c : Constants) (hr : 0 ≤ c.BALL_RADIUS)
    (hh : 1 / 100 ≤ c.PITCH_H + 2 * c.BALL_RADIUS) :
    (∀ scene : Scene, (referee c scene).1 = Event.OUT ↔
      ¬ ((scene.ball.position.y - c.BALL_RADIUS ≥ c.CENTER_Y - c.GOAL_HEIGHT / 2 ∧
          scene.ball.position.y + c.BALL_RADIUS ≤ c.CENTER_Y + c.GOAL_HEIGHT / 2) ∧
        (scene.ball.position.x - c.BALL_RADIUS > c.PITCH_X + c.PITCH_W ∨
          scene.ball.position.x + c.BALL_RADIUS < c.PITCH_X)) ∧
      (scene.ball.position.x + c.BALL_RADIUS < c.PITCH_X ∨
        scene.ball.position.x - c.BALL_RADIUS > c.PITCH_X + c.PITCH_W ∨
        scene.ball.position.y + c.BALL_RADIUS < c.PITCH_Y ∨
        scene.ball.position.y - c.BALL_RADIUS > c.PITCH_Y + c.PITCH_H)) ∧
    (∀ scene : Scene, (referee c scene).1 = Event.PLAY_ON ↔
      ¬ ((scene.ball.position.y - c.BALL_RADIUS ≥ c.CENTER_Y - c.GOAL_HEIGHT / 2 ∧
          scene.ball.position.y + c.BALL_RADIUS ≤ c.CENTER_Y + c.GOAL_HEIGHT / 2) ∧
        (scene.ball.position.x - c.BALL_RADIUS > c.PITCH_X + c.PITCH_W ∨
          scene.ball.position.x + c.BALL_RADIUS < c.PITCH_X)) ∧
      ¬ (scene.ball.position.x + c.BALL_RADIUS < c.PITCH_X ∨
        scene.ball.position.x - c.BALL_RADIUS > c.PITCH_X + c.PITCH_W ∨
        scene.ball.position.y + c.BALL_RADIUS < c.PITCH_Y ∨
        scene.ball.position.y - c.BALL_RADIUS > c.PITCH_Y + c.PITCH_H)) ∧
    (∀ scene : Scene,
      c.PITCH_X ≤ scene.ball.position.x → scene.ball.position.x ≤ c.PITCH_X + c.PITCH_W →
      scene.ball.position.y = c.PITCH_Y - c.BALL_RADIUS + 1 / 100 →
        (referee c scene).1 ≠ Event.OUT) ∧
    (∀ scene : Scene,
      c.PITCH_X ≤ scene.ball.position.x → scene.ball.position.x ≤ c.PITCH_X + c.PITCH_W →
      scene.ball.position.y = c.PITCH_Y - c.BALL_RADIUS - 1 / 100 →
        (referee c scene).1 = Event.OUT) := by
  have hout : ∀ scene : Scene, (referee c scene).1 = Event.OUT ↔
      ¬ ((scene.ball.position.y - c.BALL_RADIUS ≥ c.CENTER_Y - c.GOAL_HEIGHT / 2 ∧
          scene.ball.position.y + c.BALL_RADIUS ≤ c.CENTER_Y + c.GOAL_HEIGHT / 2) ∧
        (scene.ball.position.x - c.BALL_RADIUS > c.PITCH_X + c.PITCH_W ∨
          scene.ball.position.x + c.BALL_RADIUS < c.PITCH_X)) ∧
      (scene.ball.position.x + c.BALL_RADIUS < c.PITCH_X ∨
        scene.ball.position.x - c.BALL_RADIUS > c.PITCH_X + c.PITCH_W ∨
        scene.ball.position.y + c.BALL_RADIUS < c.PITCH_Y ∨
        scene.ball.position.y - c.BALL_RADIUS > c.PITCH_Y + c.PITCH_H) := by
    intro scene
    rw [referee_out_iff_rule, ← referee_goal_iff_rule, out_fst_eq_true]
  refine ⟨hout, ?_, ?_, ?_⟩
  · intro scene
    rw [referee_play_on_iff_rule, ← referee_goal_iff_rule, ← out_fst_eq_true]
    simp
  · intro scene hx1 hx2 hy ho
    rcases ((hout scene).mp ho).2 with h | h | h | h
    · linarith
    · linarith
    · rw [hy] at h; linarith
    · rw [hy] at h; linarith
  · intro scene hx1 hx2 hy
    rw [hout]
    refine ⟨?_, Or.inr (Or.inr (Or.inl ?_))⟩
    · rintro ⟨_, h | h⟩ <;> linarith
    · rw [hy]; linarith

/-- C4 at a concrete input: on the sample pitch the ball at `(500, 25 - 8 - 0.01)` is
out. -/
theorem referee_out_iff_witness :
    ((0 : ℚ) ≤ samplePitch.BALL_RADIUS ∧
      1 / 100 ≤ samplePitch.PITCH_H + 2 * samplePitch.BALL_RADIUS) ∧
    (referee samplePitch (sceneWithBallAt 500 (25 - 8 - 1 / 100))).1 = Event.OUT :=
  ⟨⟨by norm_num [samplePitch], by norm_num [samplePitch]⟩,
    (referee_out_iff samplePitch (by norm_num [samplePitch])
        (by norm_num [samplePitch])).2.2.2
      (sceneWithBallAt 500 (25 - 8 - 1 / 100))
      (by norm_num [samplePitch, sceneWithBallAt])
      (by norm_num [samplePitch, sceneWithBallAt])
      (by norm_num [samplePitch, sceneWithBallAt])⟩

/-- C5: `referee` does not decrease the score of a team whose score is below
`INT_MAX`, it never touches the ball, and whenever it returns OUT or PLAY_ON the scene
after the call is the scene before it: both scores and the ball's position, velocity
and possessor are what they were. -/
theorem referee_frame (c : Constants) (scene : Scene) :
    (scene.first_team.score < 2147483647 →
      scene.first_team.score ≤ (referee c scene).2.1.first_team.score) ∧
    (scene.second_team.score < 2147483647 →
      scene.second_team.score ≤ (referee c scene).2.1.second_team.score) ∧
    (referee c scene).2.1.ball = scene.ball ∧
    ((referee c scene).1 = Event.OUT ∨ (referee c scene).1 = Event.PLAY_ON →
      (referee c scene).2.1 = scene ∧
      (referee c scene).2.1.first_team.score = scene.first_team.score ∧
      (referee c scene).2.1.second_team.score = scene.second_team.score ∧
      (referee c scene).2.1.ball.position = scene.ball.position ∧
      (referee c scene).2.1.ball.velocity = scene.ball.velocity ∧
      (referee c scene).2.1.ball.possessor = scene.ball.possessor) := by
  unfold referee
  simp only []
  split_ifs with g1 g2 g3
  · exact ⟨fun h => le_wrapInt32_succ _ h, fun _ => le_refl _, rfl, by simp⟩
  · exact ⟨fun _ => le_refl _, fun h => le_wrapInt32_succ _ h, rfl, by simp⟩
  · simp
  · simp

/-- C5 at a concrete input: after the goal in the right net of the sample pitch the
score of team 1, which was 0, is not lower. -/
theorem referee_frame_witness :
    (sceneWithBallAt 1034 325).first_team.score < 2147483647 ∧
    (sceneWithBallAt 1034 325).first_team.score ≤
      (referee samplePitch (sceneWithBallAt 1034 325)).2.1.first_team.score :=
  ⟨by decide, (referee_frame samplePitch (sceneWithBallAt 1034 325)).1 (by decide)⟩

/-! ## Validator: velocity caps -/

/-- C6, the claim as stated fails: a player of agility -1 at rest has the cap
`max = -2/5`; `verify_movement` sets both velocity components to `2/5`, and no
component can be within a negative cap. -/
theorem verify_movement_bound_counterexample :
    (verify_movement samplePitch (playerWith (-1) 5 ⟨0, 0⟩)).1.velocity = ⟨2 / 5, 2 / 5⟩ ∧
    ¬ (|(verify_movement samplePitch (playerWith (-1) 5 ⟨0, 0⟩)).1.velocity.x| ≤
          (((playerWith (-1) 5 ⟨0, 0⟩).talents.agility : ℚ) /
            (samplePitch.MAX_TALENT_PER_SKILL : ℚ)) * samplePitch.MAX_PLAYER_VELOCITY ∧
        |(verify_movement samplePitch (playerWith (-1) 5 ⟨0, 0⟩)).1.velocity.y| ≤
          (((playerWith (-1) 5 ⟨0, 0⟩).talents.agility : ℚ) /
            (samplePitch.MAX_TALENT_PER_SKILL : ℚ)) * samplePitch.MAX_PLAYER_VELOCITY) := by
  have h : (verify_movement samplePitch (playerWith (-1) 5 ⟨0, 0⟩)).1.velocity =
      ⟨2 / 5, 2 / 5⟩ := by
    norm_num [verify_movement, samplePitch, playerWith]
  refine ⟨h, ?_⟩
  rw [h]
  norm_num [samplePitch, playerWith, lt_abs]

/-- C6, amended: with positive `MAX_TALENT_PER_SKILL` and `MAX_PLAYER_VELOCITY`, after
`verify_movement` both `|velocity.x| <= max` and `|velocity.y| <= max` hold, for every
velocity held before the call, exactly when the player's agility is not negative
(`max = (agility / MAX_TALENT_PER_SKILL) * MAX_PLAYER_VELOCITY`). -/
theorem verify_movement_bound (c : Constants) (hT : 0 < c.MAX_TALENT_PER_SKILL)
    (hV : 0 < c.MAX_PLAYER_VELOCITY) (player : Player) :
    (|(verify_movement c player).1.velocity.x| ≤
        ((player.talents.agility : ℚ) / (c.MAX_TALENT_PER_SKILL : ℚ)) * c.MAX_PLAYER_VELOCITY ∧
      |(verify_movement c player).1.velocity.y| ≤
        ((player.talents.agility : ℚ) / (c.MAX_TALENT_PER_SKILL : ℚ)) * c.MAX_PLAYER_VELOCITY) ↔
    0 ≤ player.talents.agility := by
  have hcap := talent_cap_nonneg_iff player.talents.agility c.MAX_TALENT_PER_SKILL
    c.MAX_PLAYER_VELOCITY hT hV
  rw [verify_movement_velocity_x, verify_movement_velocity_y]
  constructor
  · intro h
    by_contra hneg
    exact not_abs_le_of_neg (lt_of_not_ge (fun hge => hneg (hcap.mp hge))) h.1
  · intro h
    exact ⟨abs_clamp_le (hcap.mpr h), abs_clamp_le (hcap.mpr h)⟩

/-- C6 at a concrete input: a player of agility 5 asking for `(9, -9)` on the sample
pitch ends within the cap. -/
theorem verify_movement_bound_witness :
    (0 < samplePitch.MAX_TALENT_PER_SKILL ∧ 0 < samplePitch.MAX_PLAYER_VELOCITY) ∧
    (|(verify_movement samplePitch (playerWith 5 5 ⟨9, -9⟩)).1.velocity.x| ≤
        (((playerWith 5 5 ⟨9, -9⟩).talents.agility : ℚ) /
          (samplePitch.MAX_TALENT_PER_SKILL : ℚ)) * samplePitch.MAX_PLAYER_VELOCITY ∧
      |(verify_movement samplePitch (playerWith 5 5 ⟨9, -9⟩)).1.velocity.y| ≤
        (((playerWith 5 5 ⟨9, -9⟩).talents.agility : ℚ) /
          (samplePitch.MAX_TALENT_PER_SKILL : ℚ)) * samplePitch.MAX_PLAYER_VELOCITY) :=
  ⟨⟨by decide, by norm_num [samplePitch]⟩,
    (verify_movement_bound samplePitch (by decide) (by norm_num [samplePitch])
      (playerWith 5 5 ⟨9, -9⟩)).mpr (by decide)⟩

/-- C7, the claim as stated fails: a resting ball held by a player of shooting talent
-1 has the cap `max = -1`; `verify_shoot` sets both velocity components to `1`, for
either value of `kickoff`, and no component can be within a negative cap. -/
theorem verify_shoot_bound_counterexample :
    (verify_shoot samplePitch (fun _ => playerWith 5 (-1) ⟨0, 0⟩) (heldBall ⟨0, 0⟩)
      false).1.velocity = ⟨1, 1⟩ ∧
    (verify_shoot samplePitch (fun _ => playerWith 5 (-1) ⟨0, 0⟩) (heldBall ⟨0, 0⟩)
      true).1.velocity = ⟨1, 1⟩ ∧
    ¬ (|(verify_shoot samplePitch (fun _ => playerWith 5 (-1) ⟨0, 0⟩) (heldBall ⟨0, 0⟩)
            false).1.velocity.x| ≤
          samplePitch.MAX_BALL_VELOCITY *
            (((playerWith 5 (-1) ⟨0, 0⟩).talents.shooting : ℚ) /
              (samplePitch.MAX_TALENT_PER_SKILL : ℚ)) ∧
        |(verify_shoot samplePitch (fun _ => playerWith 5 (-1) ⟨0, 0⟩) (heldBall ⟨0, 0⟩)
            false).1.velocity.y| ≤
          samplePitch.MAX_BALL_VELOCITY *
            (((playerWith 5 (-1) ⟨0, 0⟩).talents.shooting : ℚ) /
              (samplePitch.MAX_TALENT_PER_SKILL : ℚ))) := by
  have h : (verify_shoot samplePitch (fun _ => playerWith 5 (-1) ⟨0, 0⟩) (heldBall ⟨0, 0⟩)
      false).1.velocity = ⟨1, 1⟩ := by
    norm_num [verify_shoot, samplePitch, playerWith, heldBall]
  refine ⟨h, ?_, ?_⟩
  · norm_num [verify_shoot, samplePitch, playerWith, heldBall]
  · rw [h]
    norm_num [samplePitch, playerWith]

/-- C7, amended: with positive `MAX_TALENT_PER_SKILL` and `MAX_BALL_VELOCITY`, for every
ball that has a possessor, after `verify_shoot` (with `kickoff` true or false) both
`|velocity.x| <= max` and `|velocity.y| <= max` hold, for every velocity held before the
call, exactly when the possessor's shooting talent is not negative
(`max = MAX_BALL_VELOCITY * (shooting / MAX_TALENT_PER_SKILL)`). -/
theorem verify_shoot_bound (c : Constants) (hT : 0 < c.MAX_TALENT_PER_SKILL)
    (hV : 0 < c.MAX_BALL_VELOCITY) (mem : PlayerId → Player) (ball : Ball) (pid : PlayerId)
    (hp : ball.possessor = some pid) (kickoff : Bool) :
    (|(verify_shoot c mem ball kickoff).1.velocity.x| ≤
        c.MAX_BALL_VELOCITY * (((mem pid).talents.shooting : ℚ) / (c.MAX_TALENT_PER_SKILL : ℚ)) ∧
      |(verify_shoot c mem ball kickoff).1.velocity.y| ≤
        c.MAX_BALL_VELOCITY * (((mem pid).talents.shooting : ℚ) / (c.MAX_TALENT_PER_SKILL : ℚ))) ↔
    0 ≤ (mem pid).talents.shooting := by
  have hcap := talent_cap_nonneg_iff (mem pid).talents.shooting c.MAX_TALENT_PER_SKILL
    c.MAX_BALL_VELOCITY hT hV
  rw [mul_comm] at hcap
  rw [verify_shoot_velocity_x c mem ball pid hp, verify_shoot_velocity_y c mem ball pid hp]
  constructor
  · intro h
    by_contra hneg
    exact not_abs_le_of_neg (lt_of_not_ge (fun hge => hneg (hcap.mp hge))) h.1
  · intro h
    exact ⟨abs_clamp_le (hcap.mpr h), abs_clamp_le (hcap.mpr h)⟩

/-- C7 at a concrete input: a kick-off ball asked to leave at `(-30, 2)` by a player of
shooting talent 5 on the sample pitch ends within the cap. -/
theorem verify_shoot_bound_witness :
    (0 < samplePitch.MAX_TALENT_PER_SKILL ∧ 0 < samplePitch.MAX_BALL_VELOCITY ∧
      (heldBall ⟨-30, 2⟩).possessor = some 0) ∧
    (|(verify_shoot samplePitch (fun _ => playerWith 5 5 ⟨0, 0⟩) (heldBall ⟨-30, 2⟩)
          true).1.velocity.x| ≤
        samplePitch.MAX_BALL_VELOCITY *
          ((((fun _ => playerWith 5 5 ⟨0, 0⟩) 0 : Player).talents.shooting : ℚ) /
            (samplePitch.MAX_TALENT_PER_SKILL : ℚ)) ∧
      |(verify_shoot samplePitch (fun _ => playerWith 5 5 ⟨0, 0⟩) (heldBall ⟨-30, 2⟩)
          true).1.velocity.y| ≤
        samplePitch.MAX_BALL_VELOCITY *
          ((((fun _ => playerWith 5 5 ⟨0, 0⟩) 0 : Player).talents.shooting : ℚ) /
            (samplePitch.MAX_TALENT_PER_SKILL : ℚ))) :=
  ⟨⟨by decide, by norm_num [samplePitch], rfl⟩,
    (verify_shoot_bound samplePitch (by decide) (by norm_num [samplePitch])
      (fun _ => playerWith 5 5 ⟨0, 0⟩) (heldBall ⟨-30, 2⟩) 0 rfl true).mpr (by decide)⟩

/-! ## Validator: player state -/

/-- C8: `verify_state` changes the player's state, and emits a report, exactly when the
state was SHOOTING and the ball's possessor is not that player; the state then becomes
MOVING.  In every other case the world is unchanged and nothing is reported.  The scene
is never touched, and after the call a player in state SHOOTING is the ball's
possessor. -/
theorem verify_state_spec (self : PlayerId) (w : World) :
    (((verify_state self w).1.player self).state ≠ (w.player self).state ↔
      (w.player self).state = PlayerState.SHOOTING ∧ w.scene.ball.possessor ≠ some self) ∧
    ((verify_state self w).2 ≠ [] ↔
      (w.player self).state = PlayerState.SHOOTING ∧ w.scene.ball.possessor ≠ some self) ∧
    ((w.player self).state = PlayerState.SHOOTING ∧ w.scene.ball.possessor ≠ some self →
      ((verify_state self w).1.player self).state = PlayerState.MOVING ∧
      (verify_state self w).2 = [Report.notYourBall (w.player self).team (w.player self).kit]) ∧
    (¬ ((w.player self).state = PlayerState.SHOOTING ∧ w.scene.ball.possessor ≠ some self) →
      (verify_state self w).1 = w ∧ (verify_state self w).2 = []) ∧
    (verify_state self w).1.scene = w.scene ∧
    (((verify_state self w).1.player self).state = PlayerState.SHOOTING →
      (verify_state self w).1.scene.ball.possessor = some self) := by
  unfold verify_state
  simp only []
  split_ifs with h
  · obtain ⟨hp, hs⟩ := h
    simp [hp, hs]
  · have h' : ¬ ((w.player self).state = PlayerState.SHOOTING ∧
        w.scene.ball.possessor ≠ some self) := fun hc => h ⟨hc.2, hc.1⟩
    simp only [ne_eq, not_true_eq_false, false_iff, true_and, and_true, implies_true]
    refine ⟨h', h', fun hc => absurd hc h', ?_⟩
    intro hs
    by_contra hp
    exact h ⟨hp, hs⟩

/-- C9: `verify_state` is idempotent.  Applied to the world its first application
leaves, it returns that world unchanged and reports nothing. -/
theorem verify_state_idempotent (self : PlayerId) (w : World) :
    verify_state self (verify_state self w).1 = ((verify_state self w).1, []) := by
  unfold verify_state
  simp only []
  split_ifs with h1 h2
  · simp at h2
  · rfl
  · rfl

/-! ## State decision -/

/-- C10: for a player and a ball whose radii sum to at least 0, `change_stater` sets
the player's state to SHOOTING if the ball's possessor is the player; otherwise to
INTERCEPTING if the Euclidean distance between the two centres is at most
`player.radius + ball.radius`; otherwise to MOVING.  The result is never IDLE and does
not depend on the state the player had before. -/
theorem change_stater_spec (self : PlayerId) (w : World)
    (hr : 0 ≤ (w.player self).radius + w.scene.ball.radius) :
    (w.scene.ball.possessor = some self →
      ((change_stater self w).player self).state = PlayerState.SHOOTING) ∧
    (w.scene.ball.possessor ≠ some self →
      Real.sqrt
          ((((w.player self).position.x - w.scene.ball.position.x) ^ 2 +
            ((w.player self).position.y - w.scene.ball.position.y) ^ 2 : ℚ) : ℝ) ≤
        (((w.player self).radius + w.scene.ball.radius : ℚ) : ℝ) →
      ((change_stater self w).player self).state = PlayerState.INTERCEPTING) ∧
    (w.scene.ball.possessor ≠ some self →
      ¬ Real.sqrt
          ((((w.player self).position.x - w.scene.ball.position.x) ^ 2 +
            ((w.player self).position.y - w.scene.ball.position.y) ^ 2 : ℚ) : ℝ) ≤
        (((w.player self).radius + w.scene.ball.radius : ℚ) : ℝ) →
      ((change_stater self w).player self).state = PlayerState.MOVING) ∧
    ((change_stater self w).player self).state ≠ PlayerState.IDLE ∧
    (∀ st : PlayerState, change_stater self (w.setState self st) = change_stater self w) := by
  have hr' : (0 : ℝ) ≤ (((w.player self).radius + w.scene.ball.radius : ℚ) : ℝ) := by
    exact_mod_cast hr
  have hiff : ((w.player self).position.x - w.scene.ball.position.x) *
        ((w.player self).position.x - w.scene.ball.position.x) +
      ((w.player self).position.y - w.scene.ball.position.y) *
        ((w.player self).position.y - w.scene.ball.position.y) ≤
      ((w.player self).radius + w.scene.ball.radius) *
        ((w.player self).radius + w.scene.ball.radius) ↔
      Real.sqrt
          ((((w.player self).position.x - w.scene.ball.position.x) ^ 2 +
            ((w.player self).position.y - w.scene.ball.position.y) ^ 2 : ℚ) : ℝ) ≤
        (((w.player self).radius + w.scene.ball.radius : ℚ) : ℝ) := by
    rw [Real.sqrt_le_left hr', ← Rat.cast_pow, Rat.cast_le]
    constructor <;> intro h <;> nlinarith [h]
  refine ⟨fun hp => ?_, fun hp hd => ?_, fun hp hd => ?_, ?_, fun st => ?_⟩
  · rw [change_stater_state_eq, if_pos hp]
  · rw [change_stater_state_eq, if_neg hp, if_pos (hiff.mpr hd)]
  · rw [change_stater_state_eq, if_neg hp, if_neg (fun h => hd (hiff.mp h))]
  · rw [change_stater_state_eq]
    split_ifs <;> simp
  · unfold change_stater World.setState player_ball_colliding
    simp only [Function.update_same, Function.update_idem]

/-- C10 at a concrete input: a player of radius 15 at the origin and a free ball of
radius 8 at `(3, 4)`, at distance 5, overlap, and the player is set to INTERCEPTING. -/
theorem change_stater_spec_witness :
    (0 : ℚ) ≤ ((worldWithRadius 15).player 0).radius + (worldWithRadius 15).scene.ball.radius ∧
    ((change_stater 0 (worldWithRadius 15)).player 0).state = PlayerState.INTERCEPTING :=
  ⟨by norm_num [worldWithRadius, sceneWithBallAt, playerWith],
    (change_stater_spec 0 (worldWithRadius 15)
        (by norm_num [worldWithRadius, sceneWithBallAt, playerWith])).2.1
      (by simp [worldWithRadius, sceneWithBallAt])
      (by
        rw [Real.sqrt_le_left (by norm_num [worldWithRadius, sceneWithBallAt, playerWith])]
        norm_num [worldWithRadius, sceneWithBallAt, playerWith])⟩

/-! ## Shared lemmas on the kick-off check -/

theorem verify_shoot_ownHalf_iff (c : Constants) (mem : PlayerId → Player) (ball : Ball)
    (pid : PlayerId) (hp : ball.possessor = some pid) (kickoff : Bool) :
    (∃ t k, Report.ownHalf t k ∈ (verify_shoot c mem ball kickoff).2) ↔
      kickoff = true ∧
        (((mem pid).team = 1 ∧ (verify_shoot c mem ball kickoff).1.velocity.x > 0) ∨
          ((mem pid).team = 2 ∧ (verify_shoot c mem ball kickoff).1.velocity.x < 0)) := by
  unfold verify_shoot
  simp only [hp]
  cases kickoff
  · simp only [Bool.false_eq_true, if_false, false_and, iff_false]
    rintro ⟨t, k, h⟩
    split_ifs at h <;> simp at h
  · simp only [if_true, true_and, Bool.or_eq_true, Bool.and_eq_true, decide_eq_true_eq]
    split_ifs with h1 h2 h3 h4 h5 h6 h7 <;> simp_all

theorem clamp_pos_iff {v m : ℚ} (hm : 0 < m) :
    (if |v| > m then (if v > 0 then m else -m) else v) > 0 ↔ v > 0 := by
  split_ifs with h1 h2
  · simp [hm, h2]
  · simp only [gt_iff_lt, Left.neg_pos_iff]
    constructor
    · intro h; linarith
    · intro h; exact absurd h h2
  · rfl

theorem clamp_neg_iff {v m : ℚ} (hm : 0 < m) :
    (if |v| > m then (if v > 0 then m else -m) else v) < 0 ↔ v < 0 := by
  split_ifs with h1 h2
  · constructor
    · intro h; linarith
    · intro h; linarith
  · have hv : v ≠ 0 := by
      intro h0
      rw [h0, abs_zero] at h1
      linarith
    have hv' : v < 0 := lt_of_le_of_ne (not_lt.mp h2) hv
    simp [hm, hv']
  · rfl

/-! ## Validator: kick-off direction, absent possessor, talents -/

/-- C12, the claim as stated fails: at kick-off a ball held by a team 1 player of
shooting talent 0 comes in with x-velocity 5; the cap is 0, the clamp sets the
x-velocity to 0 before the direction is looked at, and no illegal direction is
reported. -/
theorem verify_shoot_kickoff_counterexample :
    ((fun _ => playerWith 5 0 ⟨0, 0⟩) 0 : Player).team = 1 ∧
    (heldBall ⟨5, 0⟩).velocity.x > 0 ∧
    (verify_shoot samplePitch (fun _ => playerWith 5 0 ⟨0, 0⟩) (heldBall ⟨5, 0⟩) true).2 =
      [Report.shootTooFastX 1 0] ∧
    ¬ ∃ t k, Report.ownHalf t k ∈
      (verify_shoot samplePitch (fun _ => playerWith 5 0 ⟨0, 0⟩) (heldBall ⟨5, 0⟩) true).2 := by
  have h : (verify_shoot samplePitch (fun _ => playerWith 5 0 ⟨0, 0⟩) (heldBall ⟨5, 0⟩)
      true).2 = [Report.shootTooFastX 1 0] := by
    norm_num [verify_shoot, samplePitch, playerWith, heldBall]
  refine ⟨rfl, by norm_num [heldBall], h, ?_⟩
  rw [h]
  simp

/-- C12, amended: for every ball whose possessor has a positive shooting talent (with
positive `MAX_TALENT_PER_SKILL` and `MAX_BALL_VELOCITY`) and every incoming velocity,
`verify_shoot` reports an illegal kick-off direction exactly when `kickoff` is true and
either the possessor is on team 1 and the incoming x-velocity is positive, or the
possessor is on team 2 and the incoming x-velocity is negative; the ball it leaves is
the same for `kickoff = true` and `kickoff = false`. -/
theorem verify_shoot_kickoff_report (c : Constants) (hT : 0 < c.MAX_TALENT_PER_SKILL)
    (hV : 0 < c.MAX_BALL_VELOCITY) (mem : PlayerId → Player) (ball : Ball) (pid : PlayerId)
    (hp : ball.possessor = some pid) (hs : 0 < (mem pid).talents.shooting) :
    (∀ kickoff : Bool,
      (∃ t k, Report.ownHalf t k ∈ (verify_shoot c mem ball kickoff).2) ↔
        kickoff = true ∧
          (((mem pid).team = 1 ∧ ball.velocity.x > 0) ∨
            ((mem pid).team = 2 ∧ ball.velocity.x < 0))) ∧
    (verify_shoot c mem ball true).1 = (verify_shoot c mem ball false).1 := by
  have hmax : 0 < c.MAX_BALL_VELOCITY *
      (((mem pid).talents.shooting : ℚ) / (c.MAX_TALENT_PER_SKILL : ℚ)) := by
    have h1 : (0 : ℚ) < ((mem pid).talents.shooting : ℚ) := by exact_mod_cast hs
    have h2 : (0 : ℚ) < (c.MAX_TALENT_PER_SKILL : ℚ) := by exact_mod_cast hT
    positivity
  refine ⟨fun kickoff => ?_, verify_shoot_fst_kickoff c mem ball true⟩
  rw [verify_shoot_ownHalf_iff c mem ball pid hp, verify_shoot_velocity_x c mem ball pid hp,
    clamp_pos_iff hmax, clamp_neg_iff hmax]

/-- C12 at a concrete input: a team 1 player of shooting talent 5 kicking off with
x-velocity 30 is reported. -/
theorem verify_shoot_kickoff_report_witness :
    (0 < samplePitch.MAX_TALENT_PER_SKILL ∧ 0 < samplePitch.MAX_BALL_VELOCITY ∧
      (heldBall ⟨30, 2⟩).possessor = some 0 ∧
      0 < ((fun _ => playerWith 5 5 ⟨0, 0⟩) 0 : Player).talents.shooting) ∧
    ∃ t k, Report.ownHalf t k ∈
      (verify_shoot samplePitch (fun _ => playerWith 5 5 ⟨0, 0⟩) (heldBall ⟨30, 2⟩) true).2 :=
  ⟨⟨by decide, by norm_num [samplePitch], rfl, by decide⟩,
    ((verify_shoot_kickoff_report samplePitch (by decide) (by norm_num [samplePitch])
      (fun _ => playerWith 5 5 ⟨0, 0⟩) (heldBall ⟨30, 2⟩) 0 rfl (by decide)).1 true).mpr
      ⟨rfl, Or.inl ⟨rfl, by norm_num [heldBall]⟩⟩⟩

/-- C13: for a ball whose possessor is absent `verify_shoot` is a no-op for both values
of `kickoff`: the ball (velocity, position, possessor) is returned as it was, whatever
its velocity, and nothing is reported. -/
theorem verify_shoot_no_possessor (c : Constants) (mem : PlayerId → Player) (ball : Ball)
    (kickoff : Bool) (hp : ball.possessor = none) :
    verify_shoot c mem ball kickoff = (ball, []) := by
  unfold verify_shoot
  simp only [hp]

/-- C13 at a concrete input: a free ball moving at `(99, -99)` is left alone at
kick-off. -/
theorem verify_shoot_no_possessor_witness :
    (sceneWithBallAt 3 4).ball.possessor = none ∧
    verify_shoot samplePitch (fun _ => playerWith 5 5 ⟨0, 0⟩)
        { (sceneWithBallAt 3 4).ball with velocity := ⟨99, -99⟩ } true =
      ({ (sceneWithBallAt 3 4).ball with velocity := ⟨99, -99⟩ }, []) :=
  ⟨rfl, verify_shoot_no_possessor samplePitch (fun _ => playerWith 5 5 ⟨0, 0⟩)
    { (sceneWithBallAt 3 4).ball with velocity := ⟨99, -99⟩ } true rfl⟩

/-- C14: when the skill cap is small enough for four capped skills to fit a 32-bit
`int`, `verify_talents` emits a report exactly when some skill lies outside
`[1, MAX_TALENT_PER_SKILL]` or the sum of the four skills exceeds
`MAX_TALENT_PER_PLAYER`, and otherwise prints nothing.  It is a total function of the
talents passed by value: it has no result but the report, so it neither modifies them
nor fails. -/
theorem verify_talents_report (c : Constants)
    (hcap : 4 * c.MAX_TALENT_PER_SKILL < 2147483648) (t : Talents) :
    (verify_talents c t ≠ [] ↔
      ((t.defence < 1 ∨ t.defence > c.MAX_TALENT_PER_SKILL) ∨
        (t.agility < 1 ∨ t.agility > c.MAX_TALENT_PER_SKILL) ∨
        (t.dribbling < 1 ∨ t.dribbling > c.MAX_TALENT_PER_SKILL) ∨
        (t.shooting < 1 ∨ t.shooting > c.MAX_TALENT_PER_SKILL)) ∨
      t.defence + t.agility + t.dribbling + t.shooting > c.MAX_TALENT_PER_PLAYER) ∧
    (verify_talents c t = [] ∨ ∃ sum : Int,
      verify_talents c t = [Report.invalidTalents t.defence t.agility t.dribbling t.shooting sum]) := by
  unfold verify_talents wrapInt32
  simp only [Bool.or_eq_true, decide_eq_true_eq]
  constructor
  · split_ifs with h
    · simp only [ne_eq, List.cons_ne_self, not_false_eq_true, reduceCtorEq, true_iff]
      by_contra hn
      push_neg at hn
      obtain ⟨⟨⟨h1, h2⟩, ⟨h3, h4⟩, ⟨h5, h6⟩, ⟨h7, h8⟩⟩, h9⟩ := hn
      omega
    · simp only [ne_eq, not_true_eq_false, false_iff]
      intro hn
      apply h
      omega
  · split_ifs with h
    · exact Or.inr ⟨_, rfl⟩
    · exact Or.inl rfl

/-- C14 at a concrete input: the talents `(1, 6, 6, 8)`, each within `[1, 10]` but of
sum 21 above the budget 20 of the sample constants, are reported. -/
theorem verify_talents_report_witness :
    4 * samplePitch.MAX_TALENT_PER_SKILL < 2147483648 ∧
    verify_talents samplePitch ⟨1, 6, 6, 8⟩ ≠ [] :=
  ⟨by decide,
    (verify_talents_report samplePitch (by decide) ⟨1, 6, 6, 8⟩).1.mpr (Or.inr (by decide))⟩

/-! ## Shared lemmas on the movement and kick primitives -/

theorem sampleLibm_hypotf_axis (x : ℚ) : sampleLibm.hypotf x 0 = |x| := by
  simp [sampleLibm, Rat.sqrt_eq]

theorem move_towards_target_eq (c : Constants) (L : Libm) (self : PlayerId) (w : World)
    (target_x target_y motivation : ℚ) :
    move_towards_target c L self w target_x target_y motivation =
      w.setVelocity self
        (if L.hypotf (target_x - (w.player self).position.x)
            (target_y - (w.player self).position.y) ≤ 1 / 1000 then ⟨0, 0⟩
          else
            ⟨(target_x - (w.player self).position.x) /
                L.hypotf (target_x - (w.player self).position.x)
                  (target_y - (w.player self).position.y) *
                (max_player_speed c (w.player self) * motivation),
              (target_y - (w.player self).position.y) /
                L.hypotf (target_x - (w.player self).position.x)
                  (target_y - (w.player self).position.y) *
                (max_player_speed c (w.player self) * motivation)⟩) := by
  unfold move_towards_target
  simp only []
  split_ifs <;> rfl

theorem setVelocity_velocity (w : World) (self : PlayerId) (v : Vec2) :
    ((w.setVelocity self v).player self).velocity = v := by
  simp [World.setVelocity]

theorem shoot_eq (c : Constants) (L : Libm) (r : Nat) (self : PlayerId) (w : World) (x : ℚ) :
    shoot c L r self w x =
      w.setBallVelocity
        (if L.hypotf (x - (w.player self).position.x)
            (shoot_y_selection c L r - (w.player self).position.y) ≤ 1 / 1000 then ⟨0, 0⟩
          else
            ⟨(x - (w.player self).position.x) /
                L.hypotf (x - (w.player self).position.x)
                  (shoot_y_selection c L r - (w.player self).position.y) *
                max_ball_speed c (w.player self),
              (shoot_y_selection c L r - (w.player self).position.y) /
                L.hypotf (x - (w.player self).position.x)
                  (shoot_y_selection c L r - (w.player self).position.y) *
                max_ball_speed c (w.player self)⟩) := by
  unfold shoot
  simp only []
  split_ifs <;> rfl

theorem pass_eq (c : Constants) (L : Libm) (self receiver : PlayerId) (w : World) :
    pass c L self receiver w =
      w.setBallVelocity
        (if L.hypotf ((w.player receiver).position.x - (w.player self).position.x)
            ((w.player receiver).position.y - (w.player self).position.y) ≤ 1 / 1000 then
          ⟨0, 0⟩
        else
          ⟨((w.player receiver).position.x - (w.player self).position.x) /
              L.hypotf ((w.player receiver).position.x - (w.player self).position.x)
                ((w.player receiver).position.y - (w.player self).position.y) *
              (max_ball_speed c (w.player self) * (17 / 20)),
            ((w.player receiver).position.y - (w.player self).position.y) /
              L.hypotf ((w.player receiver).position.x - (w.player self).position.x)
                ((w.player receiver).position.y - (w.player self).position.y) *
              (max_ball_speed c (w.player self) * (17 / 20))⟩) := by
  unfold pass
  simp only []
  split_ifs <;> rfl

theorem setBallVelocity_velocity (w : World) (v : Vec2) :
    (w.setBallVelocity v).scene.ball.velocity = v := rfl

theorem attacking_movement_eq (c : Constants) (L : Libm) (self : PlayerId) (w : World)
    (motivation : ℚ) :
    attacking_movement c L self w motivation =
      move_towards_target c L self w
        (c.CENTER_X + if (w.player self).team = 1 then c.PITCH_W / 2 else -(c.PITCH_W / 2))
        c.CENTER_Y motivation := rfl

theorem decide_kick_of_can_shoot (c : Constants) (L : Libm) (rnd : Nat → Nat)
    (self : PlayerId) (w : World)
    (hpast : if (w.player self).team = 1 then
        (w.player self).position.x > c.CENTER_X + c.PITCH_W / 6
      else (w.player self).position.x < c.CENTER_X - c.PITCH_W / 6) :
    decide_kick c L rnd self w =
      shoot c L (rnd 0) self w
        (if (w.player self).team = 1 then c.PITCH_X + c.PITCH_W else c.PITCH_X) := by
  unfold decide_kick
  by_cases ht : (w.player self).team = 1
  · simp only [ht, if_true] at hpast ⊢
    simp [hpast]
  · simp only [ht, if_false] at hpast ⊢
    simp [hpast]

/-! ## Movement primitives -/

/-- C15: in `move_towards_target`, when the distance `d` that `hypotf` returns for the
vector from the player to the target is at most 0.001, the player's velocity is set to
exactly `(0, 0)` (the world is the one with that single store, no quotient by `d` is
formed); on the other path the divisor `d` is strictly greater than 0.001.  Whenever
`d` is the Euclidean distance (`d >= 0` and `d * d = dx * dx + dy * dy`), a Euclidean
distance of at most 0.001 therefore yields the velocity `(0, 0)`. -/
theorem move_towards_target_guard (c : Constants) (L : Libm) (self : PlayerId) (w : World)
    (target_x target_y motivation : ℚ) :
    (L.hypotf (target_x - (w.player self).position.x)
        (target_y - (w.player self).position.y) ≤ 1 / 1000 →
      move_towards_target c L self w target_x target_y motivation =
          w.setVelocity self ⟨0, 0⟩ ∧
        ((move_towards_target c L self w target_x target_y motivation).player self).velocity =
          ⟨0, 0⟩) ∧
    (¬ L.hypotf (target_x - (w.player self).position.x)
        (target_y - (w.player self).position.y) ≤ 1 / 1000 →
      1 / 1000 < L.hypotf (target_x - (w.player self).position.x)
        (target_y - (w.player self).position.y) ∧
      ((move_towards_target c L self w target_x target_y motivation).player self).velocity =
        ⟨(target_x - (w.player self).position.x) /
            L.hypotf (target_x - (w.player self).position.x)
              (target_y - (w.player self).position.y) *
            (max_player_speed c (w.player self) * motivation),
          (target_y - (w.player self).position.y) /
            L.hypotf (target_x - (w.player self).position.x)
              (target_y - (w.player self).position.y) *
            (max_player_speed c (w.player self) * motivation)⟩) ∧
    (0 ≤ L.hypotf (target_x - (w.player self).position.x)
          (target_y - (w.player self).position.y) ∧
        L.hypotf (target_x - (w.player self).position.x)
            (target_y - (w.player self).position.y) *
          L.hypotf (target_x - (w.player self).position.x)
            (target_y - (w.player self).position.y) =
        (target_x - (w.player self).position.x) * (target_x - (w.player self).position.x) +
          (target_y - (w.player self).position.y) * (target_y - (w.player self).position.y) →
      Real.sqrt
          ((((target_x - (w.player self).position.x) ^ 2 +
            (target_y - (w.player self).position.y) ^ 2 : ℚ)) : ℝ) ≤ 1 / 1000 →
      ((move_towards_target c L self w target_x target_y motivation).player self).velocity =
        ⟨0, 0⟩) := by
  rw [move_towards_target_eq, setVelocity_velocity]
  refine ⟨fun h => ?_, fun h => ?_, fun hex hsq => ?_⟩
  · rw [if_pos h]
    exact ⟨rfl, rfl⟩
  · rw [if_neg h]
    exact ⟨not_le.mp h, rfl⟩
  · obtain ⟨h0, hmul⟩ := hex
    have hcast : (((target_x - (w.player self).position.x) ^ 2 +
        (target_y - (w.player self).position.y) ^ 2 : ℚ) : ℝ) =
        ((L.hypotf (target_x - (w.player self).position.x)
          (target_y - (w.player self).position.y) : ℚ) : ℝ) *
        ((L.hypotf (target_x - (w.player self).position.x)
          (target_y - (w.player self).position.y) : ℚ) : ℝ) := by
      rw [← Rat.cast_mul, hmul]
      congr 1
      ring
    have h0' : (0 : ℝ) ≤ ((L.hypotf (target_x - (w.player self).position.x)
        (target_y - (w.player self).position.y) : ℚ) : ℝ) := by exact_mod_cast h0
    rw [hcast, Real.sqrt_mul_self h0'] at hsq
    have hle : L.hypotf (target_x - (w.player self).position.x)
        (target_y - (w.player self).position.y) ≤ 1 / 1000 := by
      have : ((L.hypotf (target_x - (w.player self).position.x)
          (target_y - (w.player self).position.y) : ℚ) : ℝ) ≤ ((1 / 1000 : ℚ) : ℝ) := by
        simpa using hsq
      exact_mod_cast this
    rw [if_pos hle]

/-- C15 at a concrete input: a player at the origin asked to seek `(1 / 2000, 0)`, at
Euclidean distance `1 / 2000` which the sample `hypotf` returns exactly, gets the
velocity `(0, 0)`. -/
theorem move_towards_target_guard_witness :
    ((move_towards_target samplePitch sampleLibm 0 (worldWithPlayerAt 1 5 ⟨0, 0⟩)
      (1 / 2000) 0 1).player 0).velocity = ⟨0, 0⟩ :=
  (move_towards_target_guard samplePitch sampleLibm 0 (worldWithPlayerAt 1 5 ⟨0, 0⟩)
      (1 / 2000) 0 1).2.2
    (by norm_num [worldWithPlayerAt, playerWith, sampleLibm_hypotf_axis, abs_of_pos])
    (by
      rw [Real.sqrt_le_left (by norm_num)]
      norm_num [worldWithPlayerAt, playerWith])

/-- C20, the claim as stated fails: on the sample pitch (centre x 525, width 1000) a
team 1 player at `(725, 325)` is sent by `attacking_movement` to the right, velocity
`(2, 0)`, toward `(1025, 325)`; seeking the anchor `(CENTER_X + PITCH_W / 6, CENTER_Y)`
would send it to the left, velocity `(-2, 0)`. -/
theorem attacking_movement_counterexample :
    ((attacking_movement samplePitch sampleLibm 0
        (worldWithPlayerAt 1 5 ⟨725, 325⟩) 1).player 0).velocity = ⟨2, 0⟩ ∧
    ((move_towards_target samplePitch sampleLibm 0 (worldWithPlayerAt 1 5 ⟨725, 325⟩)
        (samplePitch.CENTER_X + samplePitch.PITCH_W / 6) samplePitch.CENTER_Y 1).player
          0).velocity = ⟨-2, 0⟩ := by
  constructor
  · rw [attacking_movement_eq, move_towards_target_eq, setVelocity_velocity]
    norm_num [worldWithPlayerAt, playerWith, samplePitch, sampleLibm_hypotf_axis,
      max_player_speed]
  · rw [move_towards_target_eq, setVelocity_velocity]
    norm_num [worldWithPlayerAt, playerWith, samplePitch, sampleLibm_hypotf_axis,
      max_player_speed, abs_of_neg, abs_of_pos]

/-- C20, amended: `attacking_movement` seeks a fixed anchor point half a pitch width
from `CENTER_X`, toward the goal being attacked: the world it leaves is the one
`move_towards_target` leaves for `(CENTER_X + PITCH_W / 2, CENTER_Y)` for a team 1
player, and for the mirrored point `(CENTER_X - PITCH_W / 2, CENTER_Y)` for a player of
any other team (team 2), at the given motivation. -/
theorem attacking_movement_anchor (c : Constants) (L : Libm) (self : PlayerId) (w : World)
    (motivation : ℚ) :
    ((w.player self).team = 1 →
      attacking_movement c L self w motivation =
        move_towards_target c L self w (c.CENTER_X + c.PITCH_W / 2) c.CENTER_Y motivation) ∧
    ((w.player self).team ≠ 1 →
      attacking_movement c L self w motivation =
        move_towards_target c L self w (c.CENTER_X - c.PITCH_W / 2) c.CENTER_Y motivation) := by
  constructor
  · intro ht
    rw [attacking_movement_eq, if_pos ht]
  · intro ht
    rw [attacking_movement_eq, if_neg ht, ← sub_eq_add_neg]

/-! ## Kick primitives and the kick decision -/

/-- C19: when the ball fits the goal mouth (`2 * BALL_RADIUS <= GOAL_HEIGHT`), for every
value `r` with `0 <= r <= RAND_MAX` the target y chosen by `shoot` lies in
`[goal_top + BALL_RADIUS, goal_bottom - BALL_RADIUS]`; the target x is the goal line
passed in; and when the distance `d` computed to that target exceeds 0.001 the ball
velocity is the vector to the target divided by `d`, times
`(shooting / MAX_TALENT_PER_SKILL) * MAX_BALL_VELOCITY`. -/
theorem shoot_target (c : Constants) (L : Libm) (hg : 2 * c.BALL_RADIUS ≤ c.GOAL_HEIGHT)
    (hR : 0 < L.RAND_MAX) (r : Nat) (hr : r ≤ L.RAND_MAX) (self : PlayerId) (w : World)
    (x : ℚ) :
    (c.CENTER_Y - c.GOAL_HEIGHT / 2 + c.BALL_RADIUS ≤ shoot_y_selection c L r ∧
      shoot_y_selection c L r ≤ c.CENTER_Y + c.GOAL_HEIGHT / 2 - c.BALL_RADIUS) ∧
    (1 / 1000 < L.hypotf (x - (w.player self).position.x)
        (shoot_y_selection c L r - (w.player self).position.y) →
      (shoot c L r self w x).scene.ball.velocity =
        ⟨(x - (w.player self).position.x) /
            L.hypotf (x - (w.player self).position.x)
              (shoot_y_selection c L r - (w.player self).position.y) *
            (((w.player self).talents.shooting : ℚ) / (c.MAX_TALENT_PER_SKILL : ℚ) *
              c.MAX_BALL_VELOCITY),
          (shoot_y_selection c L r - (w.player self).position.y) /
            L.hypotf (x - (w.player self).position.x)
              (shoot_y_selection c L r - (w.player self).position.y) *
            (((w.player self).talents.shooting : ℚ) / (c.MAX_TALENT_PER_SKILL : ℚ) *
              c.MAX_BALL_VELOCITY)⟩) := by
  have hRq : (0 : ℚ) < (L.RAND_MAX : ℚ) := by exact_mod_cast hR
  have hrq : (r : ℚ) ≤ (L.RAND_MAX : ℚ) := by exact_mod_cast hr
  have ht0 : 0 ≤ (r : ℚ) / (L.RAND_MAX : ℚ) := div_nonneg (Nat.cast_nonneg r) hRq.le
  have ht1 : (r : ℚ) / (L.RAND_MAX : ℚ) ≤ 1 := (div_le_one hRq).mpr hrq
  refine ⟨?_, fun hd => ?_⟩
  · unfold shoot_y_selection
    simp only []
    constructor <;> nlinarith
  · rw [shoot_eq, setBallVelocity_velocity, if_neg (not_le.mpr hd)]
    rfl

/-- C19 at a concrete input: with `RAND_MAX = 32767` the draw `r = 32767` aims at the
bottom of the admissible range of the sample goal mouth. -/
theorem shoot_target_witness :
    (2 * samplePitch.BALL_RADIUS ≤ samplePitch.GOAL_HEIGHT ∧ 0 < sampleLibm.RAND_MAX ∧
      32767 ≤ sampleLibm.RAND_MAX) ∧
    (samplePitch.CENTER_Y - samplePitch.GOAL_HEIGHT / 2 + samplePitch.BALL_RADIUS ≤
        shoot_y_selection samplePitch sampleLibm 32767 ∧
      shoot_y_selection samplePitch sampleLibm 32767 ≤
        samplePitch.CENTER_Y + samplePitch.GOAL_HEIGHT / 2 - samplePitch.BALL_RADIUS) :=
  ⟨⟨by norm_num [samplePitch], by decide, by decide⟩,
    (shoot_target samplePitch sampleLibm (by norm_num [samplePitch]) (by decide) 32767
      (by decide) 0 (worldWithPlayerAt 1 5 ⟨725, 325⟩) 1025).1⟩

/-- C11, the claim as stated fails.  On the sample pitch a team 1 player of shooting
talent 5 standing on the right goal line at `(1025, 258)`, past the threshold
`525 + 1000 / 6`, draws `rand() = 0`: the target is its own position, the distance is 0
and the ball velocity is set to `(0, 0)`.  The same player at `(1100, 258)`, behind the
goal line, kicks the ball at `(-5, 0)`, away from the positive direction. -/
theorem decide_kick_shot_counterexample :
    ((worldWithPlayerAt 1 5 ⟨1025, 258⟩).player 0).team = 1 ∧
    ((worldWithPlayerAt 1 5 ⟨1025, 258⟩).player 0).position.x >
      samplePitch.CENTER_X + samplePitch.PITCH_W / 6 ∧
    (decide_kick samplePitch sampleLibm (fun _ => 0) 0
      (worldWithPlayerAt 1 5 ⟨1025, 258⟩)).scene.ball.velocity = ⟨0, 0⟩ ∧
    ((worldWithPlayerAt 1 5 ⟨1100, 258⟩).player 0).team = 1 ∧
    ((worldWithPlayerAt 1 5 ⟨1100, 258⟩).player 0).position.x >
      samplePitch.CENTER_X + samplePitch.PITCH_W / 6 ∧
    (decide_kick samplePitch sampleLibm (fun _ => 0) 0
      (worldWithPlayerAt 1 5 ⟨1100, 258⟩)).scene.ball.velocity = ⟨-5, 0⟩ := by
  refine ⟨rfl, by norm_num [worldWithPlayerAt, playerWith, samplePitch], ?_, rfl,
    by norm_num [worldWithPlayerAt, playerWith, samplePitch], ?_⟩
  · rw [decide_kick_of_can_shoot samplePitch sampleLibm (fun _ => 0) 0
        (worldWithPlayerAt 1 5 ⟨1025, 258⟩)
        (by norm_num [worldWithPlayerAt, playerWith, samplePitch]),
      shoot_eq, setBallVelocity_velocity]
    norm_num [worldWithPlayerAt, playerWith, samplePitch, shoot_y_selection,
      sampleLibm_hypotf_axis]
  · rw [decide_kick_of_can_shoot samplePitch sampleLibm (fun _ => 0) 0
        (worldWithPlayerAt 1 5 ⟨1100, 258⟩)
        (by norm_num [worldWithPlayerAt, playerWith, samplePitch]),
      shoot_eq, setBallVelocity_velocity]
    norm_num [worldWithPlayerAt, playerWith, samplePitch, shoot_y_selection,
      sampleLibm_hypotf_axis, max_ball_speed, abs_of_neg, abs_of_pos]

/-- C11, amended: for every player strictly past the attacking threshold (team 1:
`position.x > CENTER_X + PITCH_W / 6`; any other team: `position.x < CENTER_X -
PITCH_W / 6`), every roster and every value of the random source, `decide_kick` is the
shot on goal `shoot` at the opposing goal line, never a pass.  If the distance `d`
computed to the target is at most 0.001 the ball velocity is `(0, 0)`.  If `d` exceeds
0.001, the shooting talent is positive (`MAX_TALENT_PER_SKILL` and `MAX_BALL_VELOCITY`
positive) and the shooter is short of that goal line, the x-velocity is non-zero and
points to it: positive for team 1, negative otherwise. -/
theorem decide_kick_shoots (c : Constants) (L : Libm) (rnd : Nat → Nat) (self : PlayerId)
    (w : World)
    (hpast : if (w.player self).team = 1 then
        (w.player self).position.x > c.CENTER_X + c.PITCH_W / 6
      else (w.player self).position.x < c.CENTER_X - c.PITCH_W / 6) :
    decide_kick c L rnd self w =
      shoot c L (rnd 0) self w
        (if (w.player self).team = 1 then c.PITCH_X + c.PITCH_W else c.PITCH_X) ∧
    (L.hypotf
        ((if (w.player self).team = 1 then c.PITCH_X + c.PITCH_W else c.PITCH_X) -
          (w.player self).position.x)
        (shoot_y_selection c L (rnd 0) - (w.player self).position.y) ≤ 1 / 1000 →
      (decide_kick c L rnd self w).scene.ball.velocity = ⟨0, 0⟩) ∧
    (0 < c.MAX_TALENT_PER_SKILL → 0 < c.MAX_BALL_VELOCITY →
      0 < (w.player self).talents.shooting →
      1 / 1000 < L.hypotf
        ((if (w.player self).team = 1 then c.PITCH_X + c.PITCH_W else c.PITCH_X) -
          (w.player self).position.x)
        (shoot_y_selection c L (rnd 0) - (w.player self).position.y) →
      ((w.player self).team = 1 → (w.player self).position.x < c.PITCH_X + c.PITCH_W →
        0 < (decide_kick c L rnd self w).scene.ball.velocity.x) ∧
      ((w.player self).team ≠ 1 → c.PITCH_X < (w.player self).position.x →
        (decide_kick c L rnd self w).scene.ball.velocity.x < 0)) := by
  rw [decide_kick_of_can_shoot c L rnd self w hpast, shoot_eq, setBallVelocity_velocity]
  refine ⟨rfl, fun hd => by rw [if_pos hd], fun hT hV hs hd => ?_⟩
  rw [if_neg (not_le.mpr hd)]
  have hd0 : 0 < L.hypotf
      ((if (w.player self).team = 1 then c.PITCH_X + c.PITCH_W else c.PITCH_X) -
        (w.player self).position.x)
      (shoot_y_selection c L (rnd 0) - (w.player self).position.y) := by
    linarith
  have hspeed : 0 < max_ball_speed c (w.player self) := by
    have h1 : (0 : ℚ) < ((w.player self).talents.shooting : ℚ) := by exact_mod_cast hs
    have h2 : (0 : ℚ) < (c.MAX_TALENT_PER_SKILL : ℚ) := by exact_mod_cast hT
    unfold max_ball_speed
    positivity
  constructor
  · intro ht hx
    simp only [ht, if_true] at hd0 ⊢
    have hdx : 0 < c.PITCH_X + c.PITCH_W - (w.player self).position.x := by linarith
    positivity
  · intro ht hx
    simp only [ht, if_false] at hd0 ⊢
    have hdx : c.PITCH_X - (w.player self).position.x < 0 := by linarith
    exact mul_neg_of_neg_of_pos (div_neg_of_neg_of_pos hdx hd0) hspeed

/-- C11 at a concrete input: a team 1 player at `(725, 258)` on the sample pitch, past
the threshold and 300 short of the goal line, kicks with a positive x-velocity. -/
theorem decide_kick_shoots_witness :
    (if ((worldWithPlayerAt 1 5 ⟨725, 258⟩).player 0).team = 1 then
        ((worldWithPlayerAt 1 5 ⟨725, 258⟩).player 0).position.x >
          samplePitch.CENTER_X + samplePitch.PITCH_W / 6
      else ((worldWithPlayerAt 1 5 ⟨725, 258⟩).player 0).position.x <
          samplePitch.CENTER_X - samplePitch.PITCH_W / 6) ∧
    0 < (decide_kick samplePitch sampleLibm (fun _ => 0) 0
      (worldWithPlayerAt 1 5 ⟨725, 258⟩)).scene.ball.velocity.x :=
  ⟨by norm_num [worldWithPlayerAt, playerWith, samplePitch],
    ((decide_kick_shoots samplePitch sampleLibm (fun _ => 0) 0
        (worldWithPlayerAt 1 5 ⟨725, 258⟩)
        (by norm_num [worldWithPlayerAt, playerWith, samplePitch])).2.2
      (by decide) (by norm_num [samplePitch]) (by decide)
      (by norm_num [worldWithPlayerAt, playerWith, samplePitch, shoot_y_selection,
        sampleLibm_hypotf_axis])).1 rfl
      (by norm_num [worldWithPlayerAt, playerWith, samplePitch])⟩

/-! ## Shared lemmas on the scan of the roster -/

theorem furtherForward_irrefl (team : Int) (a : ℚ) : ¬ furtherForward team a a := by
  unfold furtherForward
  split_ifs <;> simp

theorem furtherForward_trans {team : Int} {a b c : ℚ} (h1 : furtherForward team a b)
    (h2 : furtherForward team b c) : furtherForward team a c := by
  unfold furtherForward at *
  split_ifs at * <;> linarith

theorem furtherForward_asymm {team : Int} {a b : ℚ} (h : furtherForward team a b) :
    ¬ furtherForward team b a := by
  unfold furtherForward at *
  split_ifs at * <;> simp only [gt_iff_lt, not_lt] <;> linarith

theorem furtherForward_of_not_of {team : Int} {a b c : ℚ} (h1 : ¬ furtherForward team a b)
    (h2 : furtherForward team c b) : furtherForward team c a := by
  unfold furtherForward at *
  split_ifs at * <;> simp only [gt_iff_lt, not_lt] at h1 <;> linarith

theorem decide_kick_loop_succ (w : World) (self : PlayerId) (current_team : Team) (n : Nat)
    (leader : PlayerId) :
    decide_kick_loop w self current_team (n + 1) leader =
      decide_kick_step w self current_team
        (decide_kick_loop w self current_team n leader) n := by
  unfold decide_kick_loop
  rw [List.range_succ, List.foldl_append]
  rfl

theorem decide_kick_step_eq (w : World) (self : PlayerId) (current_team : Team)
    (leader : PlayerId) (i : Nat) :
    decide_kick_step w self current_team leader i =
      match current_team.players i with
      | none => leader
      | some candidate =>
        if candidate = self then leader
        else if furtherForward (w.player self).team (w.player candidate).position.x
            (w.player leader).position.x then candidate
        else leader := by
  unfold decide_kick_step furtherForward
  cases current_team.players i with
  | none => rfl
  | some candidate =>
    simp only []
    by_cases hc : candidate = self
    · simp only [hc, if_true]
    · simp only [hc, if_false]
      by_cases ht : (w.player self).team = 1
      · simp only [ht, if_true, decide_eq_true_eq]
      · simp only [ht, if_false, decide_eq_true_eq]

theorem decide_kick_loop_spec (w : World) (self : PlayerId) (current_team : Team) (n : Nat) :
    (decide_kick_loop w self current_team n self ≠ self →
      furtherForward (w.player self).team
        (w.player (decide_kick_loop w self current_team n self)).position.x
        (w.player self).position.x) ∧
    (∀ j < n, ∀ q, current_team.players j = some q →
      ¬ furtherForward (w.player self).team (w.player q).position.x
        (w.player (decide_kick_loop w self current_team n self)).position.x) ∧
    (decide_kick_loop w self current_team n self = self ∨
      ∃ i < n, current_team.players i =
          some (decide_kick_loop w self current_team n self) ∧
        ∀ j < i, ∀ q, current_team.players j = some q →
          furtherForward (w.player self).team
            (w.player (decide_kick_loop w self current_team n self)).position.x
            (w.player q).position.x) := by
  induction n with
  | zero =>
    refine ⟨fun h => absurd rfl h, fun j hj => absurd hj (Nat.not_lt_zero j), Or.inl rfl⟩
  | succ n ih =>
    obtain ⟨ih1, ih2, ih3⟩ := ih
    rw [decide_kick_loop_succ, decide_kick_step_eq]
    generalize decide_kick_loop w self current_team n self = l at ih1 ih2 ih3 ⊢
    have hself : ¬ furtherForward (w.player self).team (w.player self).position.x
        (w.player l).position.x := by
      by_cases hl : l = self
      · rw [hl]; exact furtherForward_irrefl _ _
      · exact furtherForward_asymm (ih1 hl)
    have keep : (∀ q, current_team.players n = some q →
        ¬ furtherForward (w.player self).team (w.player q).position.x
          (w.player l).position.x) →
        (l ≠ self →
          furtherForward (w.player self).team (w.player l).position.x
            (w.player self).position.x) ∧
        (∀ j < n + 1, ∀ q, current_team.players j = some q →
          ¬ furtherForward (w.player self).team (w.player q).position.x
            (w.player l).position.x) ∧
        (l = self ∨ ∃ i < n + 1, current_team.players i = some l ∧
          ∀ j < i, ∀ q, current_team.players j = some q →
            furtherForward (w.player self).team (w.player l).position.x
              (w.player q).position.x) := by
      intro hn
      refine ⟨ih1, ?_, ?_⟩
      · intro j hj q hq
        rcases Nat.lt_succ_iff_lt_or_eq.mp hj with hlt | heq
        · exact ih2 j hlt q hq
        · subst heq; exact hn q hq
      · rcases ih3 with h | ⟨i, hi, hpi, hall⟩
        · exact Or.inl h
        · exact Or.inr ⟨i, Nat.lt_succ_of_lt hi, hpi, hall⟩
    cases hp : current_team.players n with
    | none =>
      simp only []
      exact keep (fun q hq => by rw [hp] at hq; cases hq)
    | some candidate =>
      simp only []
      by_cases hc : candidate = self
      · rw [if_pos hc]
        refine keep (fun q hq => ?_)
        rw [hp] at hq
        cases hq
        rw [hc]
        exact hself
      · rw [if_neg hc]
        by_cases hb : furtherForward (w.player self).team (w.player candidate).position.x
            (w.player l).position.x
        · rw [if_pos hb]
          refine ⟨fun _ => ?_, ?_, Or.inr ⟨n, Nat.lt_succ_self n, hp, ?_⟩⟩
          · by_cases hl : l = self
            · rw [hl] at hb; exact hb
            · exact furtherForward_trans hb (ih1 hl)
          · intro j hj q hq
            rcases Nat.lt_succ_iff_lt_or_eq.mp hj with hlt | heq
            · exact furtherForward_asymm (furtherForward_of_not_of (ih2 j hlt q hq) hb)
            · subst heq
              rw [hp] at hq
              cases hq
              exact furtherForward_irrefl _ _
          · intro j hj q hq
            exact furtherForward_of_not_of (ih2 j hj q hq) hb
        · rw [if_neg hb]
          refine keep (fun q hq => ?_)
          rw [hp] at hq
          cases hq
          exact hb

theorem decide_kick_of_leader (c : Constants) (L : Libm) (rnd : Nat → Nat)
    (self : PlayerId) (w : World)
    (hno : if (w.player self).team = 1 then
        ¬ (w.player self).position.x > c.CENTER_X + c.PITCH_W / 6
      else ¬ (w.player self).position.x < c.CENTER_X - c.PITCH_W / 6)
    (hl : decide_kick_loop w self
        (if (w.player self).team = 1 then w.scene.first_team else w.scene.second_team)
        c.PLAYER_COUNT self ≠ self) :
    decide_kick c L rnd self w =
      pass c L self
        (decide_kick_loop w self
          (if (w.player self).team = 1 then w.scene.first_team else w.scene.second_team)
          c.PLAYER_COUNT self) w := by
  unfold decide_kick
  by_cases ht : (w.player self).team = 1
  · simp only [ht, if_true] at hno hl ⊢
    simp [hno, hl]
  · simp only [ht, if_false] at hno hl ⊢
    simp [hno, hl]

/-- C18: for a shooter that is not past the attacking threshold and whose roster holds
a present teammate strictly further forward than the shooter, `decide_kick` passes to
the most advanced present teammate, the one of lowest roster index among equals: there
is a slot `i` holding a player `q` further forward than the shooter, such that no
player of the roster is further forward than `q`, `q` is further forward than every
player in a slot before `i`, and `decide_kick` is `pass` to `q`.  The ball velocity is
the vector from the shooter to `q` divided by the computed distance `d`, times
`0.85 * (shooting / MAX_TALENT_PER_SKILL) * MAX_BALL_VELOCITY`, or zero if `d <= 0.001`;
the result is the same for every random source. -/
theorem decide_kick_passes_forward (c : Constants) (L : Libm) (rnd : Nat → Nat)
    (self : PlayerId) (w : World)
    (hno : if (w.player self).team = 1 then
        ¬ (w.player self).position.x > c.CENTER_X + c.PITCH_W / 6
      else ¬ (w.player self).position.x < c.CENTER_X - c.PITCH_W / 6)
    (hex : ∃ j < c.PLAYER_COUNT, ∃ q,
      (if (w.player self).team = 1 then w.scene.first_team
        else w.scene.second_team).players j = some q ∧
      furtherForward (w.player self).team (w.player q).position.x
        (w.player self).position.x) :
    ∃ i < c.PLAYER_COUNT, ∃ q,
      (if (w.player self).team = 1 then w.scene.first_team
        else w.scene.second_team).players i = some q ∧
      furtherForward (w.player self).team (w.player q).position.x
        (w.player self).position.x ∧
      (∀ j < c.PLAYER_COUNT, ∀ q',
        (if (w.player self).team = 1 then w.scene.first_team
          else w.scene.second_team).players j = some q' →
        ¬ furtherForward (w.player self).team (w.player q').position.x
          (w.player q).position.x) ∧
      (∀ j < i, ∀ q',
        (if (w.player self).team = 1 then w.scene.first_team
          else w.scene.second_team).players j = some q' →
        furtherForward (w.player self).team (w.player q).position.x
          (w.player q').position.x) ∧
      decide_kick c L rnd self w = pass c L self q w ∧
      (decide_kick c L rnd self w).scene.ball.velocity =
        (if L.hypotf ((w.player q).position.x - (w.player self).position.x)
            ((w.player q).position.y - (w.player self).position.y) ≤ 1 / 1000 then ⟨0, 0⟩
          else
            ⟨((w.player q).position.x - (w.player self).position.x) /
                L.hypotf ((w.player q).position.x - (w.player self).position.x)
                  ((w.player q).position.y - (w.player self).position.y) *
                (17 / 20 * (((w.player self).talents.shooting : ℚ) /
                  (c.MAX_TALENT_PER_SKILL : ℚ)) * c.MAX_BALL_VELOCITY),
              ((w.player q).position.y - (w.player self).position.y) /
                L.hypotf ((w.player q).position.x - (w.player self).position.x)
                  ((w.player q).position.y - (w.player self).position.y) *
                (17 / 20 * (((w.player self).talents.shooting : ℚ) /
                  (c.MAX_TALENT_PER_SKILL : ℚ)) * c.MAX_BALL_VELOCITY)⟩) ∧
      ∀ rnd' : Nat → Nat, decide_kick c L rnd' self w = decide_kick c L rnd self w := by
  obtain ⟨h1, h2, h3⟩ := decide_kick_loop_spec w self
    (if (w.player self).team = 1 then w.scene.first_team else w.scene.second_team)
    c.PLAYER_COUNT
  have hl : decide_kick_loop w self
      (if (w.player self).team = 1 then w.scene.first_team else w.scene.second_team)
      c.PLAYER_COUNT self ≠ self := by
    intro heq
    obtain ⟨j, hj, q, hq, hf⟩ := hex
    have := h2 j hj q hq
    rw [heq] at this
    exact this hf
  have hkick : ∀ r : Nat → Nat, decide_kick c L r self w =
      pass c L self
        (decide_kick_loop w self
          (if (w.player self).team = 1 then w.scene.first_team else w.scene.second_team)
          c.PLAYER_COUNT self) w :=
    fun r => decide_kick_of_leader c L r self w hno hl
  rcases h3 with h | ⟨i, hi, hpi, hall⟩
  · exact absurd h hl
  · refine ⟨i, hi, _, hpi, h1 hl, h2, hall, hkick rnd, ?_, fun r => by rw [hkick r, hkick rnd]⟩
    rw [hkick rnd, pass_eq, setBallVelocity_velocity]
    unfold max_ball_speed
    generalize decide_kick_loop w self
      (if (w.player self).team = 1 then w.scene.first_team else w.scene.second_team)
      c.PLAYER_COUNT self = q
    by_cases hd : L.hypotf ((w.player q).position.x - (w.player self).position.x)
        ((w.player q).position.y - (w.player self).position.y) ≤ 1 / 1000
    · rw [if_pos hd, if_pos hd]
    · rw [if_neg hd, if_neg hd]
      congr 1 <;> ring

/-- C18 at a concrete input: in the world `passWorld` the shooter at `x = 300`, short
of the threshold of the sample pitch, passes to a player of its roster. -/
theorem decide_kick_passes_forward_witness :
    ∃ i < samplePitch.PLAYER_COUNT, ∃ q,
      (if (passWorld.player 0).team = 1 then passWorld.scene.first_team
        else passWorld.scene.second_team).players i = some q ∧
      furtherForward (passWorld.player 0).team (passWorld.player q).position.x
        (passWorld.player 0).position.x ∧
      decide_kick samplePitch sampleLibm (fun _ => 0) 0 passWorld =
        pass samplePitch sampleLibm 0 q passWorld :=
  match decide_kick_passes_forward samplePitch sampleLibm (fun _ => 0) 0 passWorld
      (by norm_num [passWorld, playerWith, samplePitch])
      ⟨1, by decide, 1, by simp [passWorld, playerWith],
        by norm_num [furtherForward, passWorld, playerWith]⟩ with
  | ⟨i, hi, q, hq, hf, _, _, hk, _⟩ => ⟨i, hi, q, hq, hf, hk⟩

/-! ## Shared lemmas on what the logic functions write -/

theorem setVelocity_frame (w : World) (self : PlayerId) (v : Vec2) :
    ChangesOnlyVelocityOf self w (w.setVelocity self v) := by
  refine ⟨rfl, fun q hq => ?_, ?_⟩
  · simp [World.setVelocity, Function.update_noteq hq]
  · simp [World.setVelocity]

theorem move_towards_target_frame (c : Constants) (L : Libm) (self : PlayerId) (w : World)
    (target_x target_y motivation : ℚ) :
    ChangesOnlyVelocityOf self w
      (move_towards_target c L self w target_x target_y motivation) := by
  rw [move_towards_target_eq]
  exact setVelocity_frame w self _

theorem pressing_movement_frame (c : Constants) (L : Libm) (self : PlayerId) (w : World)
    (motivation : ℚ) :
    ChangesOnlyVelocityOf self w (pressing_movement c L self w motivation) :=
  move_towards_target_frame c L self w _ _ motivation

theorem attacking_movement_frame (c : Constants) (L : Libm) (self : PlayerId) (w : World)
    (motivation : ℚ) :
    ChangesOnlyVelocityOf self w (attacking_movement c L self w motivation) :=
  move_towards_target_frame c L self w _ _ motivation

theorem gk_movement_frame (c : Constants) (L : Libm) (self : PlayerId) (w : World) :
    ChangesOnlyVelocityOf self w (gk_movement c L self w) :=
  move_towards_target_frame c L self w _ _ 1

theorem movement_logic_1_0_frame (c : Constants) (L : Libm) (self : PlayerId) (w : World) :
    ChangesOnlyVelocityOf self w (movement_logic_1_0 c L self w) := by
  unfold movement_logic_1_0
  simp only []
  split_ifs
  all_goals first
    | exact pressing_movement_frame c L self w _
    | exact attacking_movement_frame c L self w _

theorem movement_logic_1_1_frame (c : Constants) (L : Libm) (self : PlayerId) (w : World) :
    ChangesOnlyVelocityOf self w (movement_logic_1_1 c L self w) := by
  unfold movement_logic_1_1
  simp only []
  split_ifs
  all_goals first
    | exact pressing_movement_frame c L self w _
    | exact attacking_movement_frame c L self w _

theorem movement_logic_1_2_frame (c : Constants) (L : Libm) (self : PlayerId) (w : World) :
    ChangesOnlyVelocityOf self w (movement_logic_1_2 c L self w) := by
  unfold movement_logic_1_2
  simp only []
  split_ifs
  all_goals first
    | exact pressing_movement_frame c L self w _
    | exact attacking_movement_frame c L self w _

theorem setBallVelocity_frame (w : World) (v : Vec2) :
    ChangesOnlyBallVelocity w (w.setBallVelocity v) :=
  ⟨rfl, rfl, rfl, rfl⟩

theorem shoot_frame (c : Constants) (L : Libm) (r : Nat) (self : PlayerId) (w : World)
    (x : ℚ) : ChangesOnlyBallVelocity w (shoot c L r self w x) := by
  rw [shoot_eq]
  exact setBallVelocity_frame w _

theorem pass_frame (c : Constants) (L : Libm) (self receiver : PlayerId) (w : World) :
    ChangesOnlyBallVelocity w (pass c L self receiver w) := by
  rw [pass_eq]
  exact setBallVelocity_frame w _

theorem decide_kick_frame (c : Constants) (L : Libm) (rnd : Nat → Nat) (self : PlayerId)
    (w : World) : ChangesOnlyBallVelocity w (decide_kick c L rnd self w) := by
  unfold decide_kick
  simp only []
  split_ifs
  all_goals first
    | (rw [shoot_eq]; exact setBallVelocity_frame w _)
    | (rw [pass_eq]; exact setBallVelocity_frame w _)
    | (split
       · split_ifs
         · rw [pass_eq]; exact setBallVelocity_frame w _
         · rw [shoot_eq]; exact setBallVelocity_frame w _
       · rw [shoot_eq]; exact setBallVelocity_frame w _)

theorem change_stater_frame (self : PlayerId) (w : World) :
    ChangesOnlyStateOf self w (change_stater self w) := by
  unfold change_stater World.setState
  simp only [Function.update_same]
  split_ifs
  all_goals
    refine ⟨rfl, fun q hq => ?_, ?_⟩
    · simp [Function.update_noteq hq]
    · simp

/-! ## Per-role logic: what it writes, and the shared tables -/

/-- C16: for every team in {1, 2}, every kit in 0..5 and either value of
`coach_both_teams`, the accessors return a function, and for every player and world:
the movement logic changes nothing but that player's velocity, the shooting logic
changes nothing but the ball's velocity, the change-state logic changes nothing but
that player's state.  The other fields of the player, the other players, the ball and
both teams are left as they were. -/
theorem logic_frame (coach_both_teams : Bool) (team kit : Int)
    (hteam : team = 1 ∨ team = 2) (hk0 : 0 ≤ kit) (hk5 : kit ≤ 5) :
    (∃ f, get_movement_logic coach_both_teams team kit = some f ∧
      ∀ (c : Constants) (L : Libm) (rnd : Nat → Nat) (self : PlayerId) (w : World),
        ChangesOnlyVelocityOf self w (f.call c L rnd self w)) ∧
    (∃ f, get_shooting_logic coach_both_teams team kit = some f ∧
      ∀ (c : Constants) (L : Libm) (rnd : Nat → Nat) (self : PlayerId) (w : World),
        ChangesOnlyBallVelocity w (f.call c L rnd self w)) ∧
    (∃ f, get_change_state_logic coach_both_teams team kit = some f ∧
      ∀ (c : Constants) (L : Libm) (rnd : Nat → Nat) (self : PlayerId) (w : World),
        ChangesOnlyStateOf self w (f.call c L rnd self w)) := by
  refine ⟨?_, ?_, ?_⟩
  · interval_cases kit <;> rcases hteam with rfl | rfl <;> cases coach_both_teams <;>
      refine ⟨_, rfl, fun c L rnd self w => ?_⟩ <;>
      first
        | exact movement_logic_1_0_frame c L self w
        | exact movement_logic_1_1_frame c L self w
        | exact movement_logic_1_2_frame c L self w
        | exact gk_movement_frame c L self w
  · interval_cases kit <;> rcases hteam with rfl | rfl <;> cases coach_both_teams <;>
      exact ⟨_, rfl, fun c L rnd self w => decide_kick_frame c L rnd self w⟩
  · interval_cases kit <;> rcases hteam with rfl | rfl <;> cases coach_both_teams <;>
      exact ⟨_, rfl, fun c L rnd self w => change_stater_frame self w⟩

/-- C16 at a concrete input: the movement logic of the goalkeeper of team 2 (kit 3),
with per-team tables in use, writes nothing but the player's velocity. -/
theorem logic_frame_witness :
    ((2 : Int) = 1 ∨ (2 : Int) = 2) ∧ (0 : Int) ≤ 3 ∧ (3 : Int) ≤ 5 ∧
    ∃ f, get_movement_logic false 2 3 = some f ∧
      ∀ (c : Constants) (L : Libm) (rnd : Nat → Nat) (self : PlayerId) (w : World),
        ChangesOnlyVelocityOf self w (f.call c L rnd self w) :=
  ⟨Or.inr rfl, by decide, by decide,
    (logic_frame false 2 3 (Or.inr rfl) (by decide) (by decide)).1⟩

/-- C17: for every kit in 0..5, when `coach_both_teams` is set each of
`get_movement_logic`, `get_shooting_logic`, `get_change_state_logic` and `get_talents`
returns for team 2 exactly the entry it returns for team 1; and for either value of the
flag, the logic selected for `(2, kit)` has the same effect on every player and world
as the logic selected for `(1, kit)`. -/
theorem team2_reuses_team1 (kit : Int) (hk0 : 0 ≤ kit) (hk5 : kit ≤ 5) :
    ((∃ f, get_movement_logic true 1 kit = some f ∧ get_movement_logic true 2 kit = some f) ∧
      (∃ f, get_shooting_logic true 1 kit = some f ∧ get_shooting_logic true 2 kit = some f) ∧
      (∃ f, get_change_state_logic true 1 kit = some f ∧
        get_change_state_logic true 2 kit = some f) ∧
      (∃ t, get_talents true 1 kit = some t ∧ get_talents true 2 kit = some t)) ∧
    (∀ flag : Bool,
      (∃ f1 f2, get_movement_logic flag 1 kit = some f1 ∧
        get_movement_logic flag 2 kit = some f2 ∧
        ∀ (c : Constants) (L : Libm) (rnd : Nat → Nat) (self : PlayerId) (w : World),
          f2.call c L rnd self w = f1.call c L rnd self w) ∧
      (∃ f1 f2, get_shooting_logic flag 1 kit = some f1 ∧
        get_shooting_logic flag 2 kit = some f2 ∧
        ∀ (c : Constants) (L : Libm) (rnd : Nat → Nat) (self : PlayerId) (w : World),
          f2.call c L rnd self w = f1.call c L rnd self w) ∧
      (∃ f1 f2, get_change_state_logic flag 1 kit = some f1 ∧
        get_change_state_logic flag 2 kit = some f2 ∧
        ∀ (c : Constants) (L : Libm) (rnd : Nat → Nat) (self : PlayerId) (w : World),
          f2.call c L rnd self w = f1.call c L rnd self w)) := by
  constructor
  · interval_cases kit <;>
      exact ⟨⟨_, rfl, rfl⟩, ⟨_, rfl, rfl⟩, ⟨_, rfl, rfl⟩, ⟨_, rfl, rfl⟩⟩
  · intro flag
    interval_cases kit <;> cases flag <;>
      exact ⟨⟨_, _, rfl, rfl, fun _ _ _ _ _ => rfl⟩, ⟨_, _, rfl, rfl, fun _ _ _ _ _ => rfl⟩,
        ⟨_, _, rfl, rfl, fun _ _ _ _ _ => rfl⟩⟩

/-- C17 at a concrete input: with the flag set, the centre forward (kit 0) of team 2
gets the very movement function of team 1. -/
theorem team2_reuses_team1_witness :
    ((0 : Int) ≤ 0 ∧ (0 : Int) ≤ 5) ∧
    ∃ f, get_movement_logic true 1 0 = some f ∧ get_movement_logic true 2 0 = some f :=
  ⟨⟨by decide, by decide⟩, (team2_reuses_team1 0 (by decide) (by decide)).1.1⟩

/-! ## Shared lemmas on the goalkeeper and on legal speeds -/

theorem gk_movement_eq (c : Constants) (L : Libm) (self : PlayerId) (w : World) :
    gk_movement c L self w =
      move_towards_target c L self w
        (if (w.player self).team = 1 then c.PITCH_X + c.PLAYER_RADIUS
          else c.PITCH_X + c.PITCH_W - c.PLAYER_RADIUS)
        (if c.CENTER_Y - c.GOAL_HEIGHT / 2 + c.BALL_RADIUS ≤ w.scene.ball.position.y ∧
            w.scene.ball.position.y ≤ c.CENTER_Y + c.GOAL_HEIGHT / 2 - c.BALL_RADIUS then
          w.scene.ball.position.y
        else (w.player self).position.y)
        1 := rfl

theorem upperLibm_neverUnderestimates : upperLibm.NeverUnderestimates := by
  intro x y
  show 0 ≤ (if Rat.sqrt (x * x + y * y) * Rat.sqrt (x * x + y * y) = x * x + y * y then
        Rat.sqrt (x * x + y * y) else |x| + |y|) ∧
    x * x + y * y ≤
      (if Rat.sqrt (x * x + y * y) * Rat.sqrt (x * x + y * y) = x * x + y * y then
        Rat.sqrt (x * x + y * y) else |x| + |y|) *
      (if Rat.sqrt (x * x + y * y) * Rat.sqrt (x * x + y * y) = x * x + y * y then
        Rat.sqrt (x * x + y * y) else |x| + |y|)
  split_ifs with h
  · exact ⟨Rat.sqrt_nonneg _, h.ge⟩
  · refine ⟨add_nonneg (abs_nonneg x) (abs_nonneg y), ?_⟩
    have hx := abs_mul_abs_self x
    have hy := abs_mul_abs_self y
    nlinarith [abs_nonneg x, abs_nonneg y, mul_nonneg (abs_nonneg x) (abs_nonneg y)]

theorem movement_logic_1_0_is_seek (c : Constants) (L : Libm) (self : PlayerId) (w : World) :
    ∃ tx ty m : ℚ, 0 ≤ m ∧ m ≤ 1 ∧
      movement_logic_1_0 c L self w = move_towards_target c L self w tx ty m := by
  unfold movement_logic_1_0 pressing_movement attacking_movement
  simp only []
  split_ifs <;> exact ⟨_, _, _, by norm_num, by norm_num, rfl⟩

theorem movement_logic_1_1_is_seek (c : Constants) (L : Libm) (self : PlayerId) (w : World) :
    ∃ tx ty m : ℚ, 0 ≤ m ∧ m ≤ 1 ∧
      movement_logic_1_1 c L self w = move_towards_target c L self w tx ty m := by
  unfold movement_logic_1_1 pressing_movement attacking_movement
  simp only []
  split_ifs <;> exact ⟨_, _, _, by norm_num, by norm_num, rfl⟩

theorem movement_logic_1_2_is_seek (c : Constants) (L : Libm) (self : PlayerId) (w : World) :
    ∃ tx ty m : ℚ, 0 ≤ m ∧ m ≤ 1 ∧
      movement_logic_1_2 c L self w = move_towards_target c L self w tx ty m := by
  unfold movement_logic_1_2 pressing_movement attacking_movement
  simp only []
  split_ifs <;> exact ⟨_, _, _, by norm_num, by norm_num, rfl⟩

theorem gk_movement_is_seek (c : Constants) (L : Libm) (self : PlayerId) (w : World) :
    ∃ tx ty m : ℚ, 0 ≤ m ∧ m ≤ 1 ∧
      gk_movement c L self w = move_towards_target c L self w tx ty m :=
  ⟨_, _, 1, by norm_num, le_refl 1, gk_movement_eq c L self w⟩

theorem call_movement_is_seek (c : Constants) (L : Libm) (rnd : Nat → Nat)
    (f : PlayerLogicFn) (hf : f ∈ team1_movement ∨ f ∈ team2_movement) (self : PlayerId)
    (w : World) :
    ∃ tx ty m : ℚ, 0 ≤ m ∧ m ≤ 1 ∧
      f.call c L rnd self w = move_towards_target c L self w tx ty m := by
  cases f
  case movement_logic_1_0 => exact movement_logic_1_0_is_seek c L self w
  case movement_logic_1_1 => exact movement_logic_1_1_is_seek c L self w
  case movement_logic_1_2 => exact movement_logic_1_2_is_seek c L self w
  case movement_logic_1_3 => exact gk_movement_is_seek c L self w
  case movement_logic_1_4 => exact movement_logic_1_2_is_seek c L self w
  case movement_logic_1_5 => exact movement_logic_1_1_is_seek c L self w
  case movement_logic_2_0 => exact movement_logic_1_0_is_seek c L self w
  case movement_logic_2_1 => exact movement_logic_1_1_is_seek c L self w
  case movement_logic_2_2 => exact movement_logic_1_2_is_seek c L self w
  case movement_logic_2_3 => exact gk_movement_is_seek c L self w
  case movement_logic_2_4 => exact movement_logic_1_2_is_seek c L self w
  case movement_logic_2_5 => exact movement_logic_1_1_is_seek c L self w
  all_goals simp [team1_movement, team2_movement] at hf

theorem get_movement_logic_mem (coach_both_teams : Bool) (team kit : Int) (f : PlayerLogicFn)
    (h : get_movement_logic coach_both_teams team kit = some f) :
    f ∈ team1_movement ∨ f ∈ team2_movement := by
  unfold get_movement_logic tableAt at h
  split_ifs at h
  all_goals first
    | exact Or.inl (List.getElem?_mem h)
    | exact Or.inr (List.getElem?_mem h)

theorem get_movement_logic_some (coach_both_teams : Bool) (team kit : Int) (hk0 : 0 ≤ kit)
    (hk5 : kit ≤ 5) : ∃ f, get_movement_logic coach_both_teams team kit = some f := by
  unfold get_movement_logic
  interval_cases kit <;> split_ifs <;> exact ⟨_, rfl⟩

theorem abs_le_of_mul_self_add_le {a b M : ℚ} (hM : 0 ≤ M) (h : a * a + b * b ≤ M * M) :
    |a| ≤ M := by
  rw [abs_le]
  constructor <;> nlinarith [mul_self_nonneg b, mul_self_nonneg (a - M), mul_self_nonneg (a + M)]

theorem verify_movement_noop (c : Constants) (p : Player)
    (hx : |p.velocity.x| ≤
      ((p.talents.agility : ℚ) / (c.MAX_TALENT_PER_SKILL : ℚ)) * c.MAX_PLAYER_VELOCITY)
    (hy : |p.velocity.y| ≤
      ((p.talents.agility : ℚ) / (c.MAX_TALENT_PER_SKILL : ℚ)) * c.MAX_PLAYER_VELOCITY) :
    verify_movement c p = (p, []) := by
  unfold verify_movement
  simp only []
  rw [if_neg (not_lt.mpr hx)]
  simp only []
  rw [if_neg (not_lt.mpr hy)]

theorem move_towards_target_speed (c : Constants) (L : Libm) (hL : L.NeverUnderestimates)
    (self : PlayerId) (w : World) (target_x target_y motivation : ℚ)
    (hM : 0 ≤ max_player_speed c (w.player self)) (hm0 : 0 ≤ motivation)
    (hm1 : motivation ≤ 1) :
    ((move_towards_target c L self w target_x target_y motivation).player self).velocity.x *
        ((move_towards_target c L self w target_x target_y motivation).player self).velocity.x +
      ((move_towards_target c L self w target_x target_y motivation).player self).velocity.y *
        ((move_towards_target c L self w target_x target_y motivation).player self).velocity.y ≤
      max_player_speed c (w.player self) * max_player_speed c (w.player self) := by
  rw [move_towards_target_eq, setVelocity_velocity]
  obtain ⟨hd0, hd⟩ := hL (target_x - (w.player self).position.x)
    (target_y - (w.player self).position.y)
  generalize L.hypotf (target_x - (w.player self).position.x)
    (target_y - (w.player self).position.y) = d at hd0 hd ⊢
  generalize target_x - (w.player self).position.x = dx at hd ⊢
  generalize target_y - (w.player self).position.y = dy at hd ⊢
  generalize max_player_speed c (w.player self) = M at hM ⊢
  split_ifs with h
  · simp only [mul_zero, add_zero]
    exact mul_self_nonneg M
  · have hdpos : 0 < d := by linarith [not_le.mp h]
    have hunit : dx / d * (dx / d) + dy / d * (dy / d) ≤ 1 := by
      rw [div_mul_div_comm, div_mul_div_comm, ← add_div, div_le_one (mul_pos hdpos hdpos)]
      exact hd
    have hK0 : 0 ≤ M * motivation := mul_nonneg hM hm0
    have hK1 : M * motivation ≤ M := by nlinarith
    have hKK : M * motivation * (M * motivation) ≤ M * M := mul_le_mul hK1 hK1 hK0 hM
    have hnn : 0 ≤ dx / d * (dx / d) + dy / d * (dy / d) :=
      add_nonneg (mul_self_nonneg _) (mul_self_nonneg _)
    calc dx / d * (M * motivation) * (dx / d * (M * motivation)) +
          dy / d * (M * motivation) * (dy / d * (M * motivation))
        = (dx / d * (dx / d) + dy / d * (dy / d)) * (M * motivation * (M * motivation)) := by
          ring
      _ ≤ 1 * (M * motivation * (M * motivation)) :=
          mul_le_mul_of_nonneg_right hunit (mul_self_nonneg _)
      _ ≤ M * M := by rw [one_mul]; exact hKK

theorem move_towards_target_talents (c : Constants) (L : Libm) (self : PlayerId) (w : World)
    (target_x target_y motivation : ℚ) :
    ((move_towards_target c L self w target_x target_y motivation).player self).talents =
      (w.player self).talents := by
  rw [move_towards_target_eq]
  simp [World.setVelocity]

theorem move_towards_target_legal (c : Constants) (L : Libm)
    (hT : 0 < c.MAX_TALENT_PER_SKILL) (hV : 0 ≤ c.MAX_PLAYER_VELOCITY)
    (hL : L.NeverUnderestimates) (self : PlayerId) (w : World)
    (target_x target_y motivation : ℚ) (hm0 : 0 ≤ motivation) (hm1 : motivation ≤ 1)
    (hag : 0 ≤ (w.player self).talents.agility) :
    ((move_towards_target c L self w target_x target_y motivation).player self).velocity.x *
        ((move_towards_target c L self w target_x target_y motivation).player self).velocity.x +
      ((move_towards_target c L self w target_x target_y motivation).player self).velocity.y *
        ((move_towards_target c L self w target_x target_y motivation).player self).velocity.y ≤
      (((w.player self).talents.agility : ℚ) / (c.MAX_TALENT_PER_SKILL : ℚ) *
          c.MAX_PLAYER_VELOCITY) *
        (((w.player self).talents.agility : ℚ) / (c.MAX_TALENT_PER_SKILL : ℚ) *
          c.MAX_PLAYER_VELOCITY) ∧
    Real.sqrt
        (((((move_towards_target c L self w target_x target_y motivation).player
              self).velocity.x ^ 2 +
            ((move_towards_target c L self w target_x target_y motivation).player
              self).velocity.y ^ 2 : ℚ)) : ℝ) ≤
      ((((w.player self).talents.agility : ℚ) / (c.MAX_TALENT_PER_SKILL : ℚ) *
        c.MAX_PLAYER_VELOCITY : ℚ) : ℝ) ∧
    |((move_towards_target c L self w target_x target_y motivation).player self).velocity.x| ≤
      ((w.player self).talents.agility : ℚ) / (c.MAX_TALENT_PER_SKILL : ℚ) *
        c.MAX_PLAYER_VELOCITY ∧
    |((move_towards_target c L self w target_x target_y motivation).player self).velocity.y| ≤
      ((w.player self).talents.agility : ℚ) / (c.MAX_TALENT_PER_SKILL : ℚ) *
        c.MAX_PLAYER_VELOCITY ∧
    verify_movement c
        ((move_towards_target c L self w target_x target_y motivation).player self) =
      ((move_towards_target c L self w target_x target_y motivation).player self, []) := by
  have hM : 0 ≤ max_player_speed c (w.player self) := by
    unfold max_player_speed
    have h1 : (0 : ℚ) ≤ ((w.player self).talents.agility : ℚ) := by exact_mod_cast hag
    have h2 : (0 : ℚ) ≤ (c.MAX_TALENT_PER_SKILL : ℚ) := by exact_mod_cast hT.le
    exact mul_nonneg (div_nonneg h1 h2) hV
  have hsq := move_towards_target_speed c L hL self w target_x target_y motivation hM hm0 hm1
  have htal := move_towards_target_talents c L self w target_x target_y motivation
  unfold max_player_speed at hM hsq
  generalize (move_towards_target c L self w target_x target_y motivation).player self = p
    at hsq htal ⊢
  have hx : |p.velocity.x| ≤ ((w.player self).talents.agility : ℚ) /
      (c.MAX_TALENT_PER_SKILL : ℚ) * c.MAX_PLAYER_VELOCITY :=
    abs_le_of_mul_self_add_le hM hsq
  have hy : |p.velocity.y| ≤ ((w.player self).talents.agility : ℚ) /
      (c.MAX_TALENT_PER_SKILL : ℚ) * c.MAX_PLAYER_VELOCITY :=
    abs_le_of_mul_self_add_le hM (by rw [add_comm]; exact hsq)
  refine ⟨hsq, ?_, hx, hy, ?_⟩
  · have hM' : (0 : ℝ) ≤ ((((w.player self).talents.agility : ℚ) /
        (c.MAX_TALENT_PER_SKILL : ℚ) * c.MAX_PLAYER_VELOCITY : ℚ) : ℝ) := by
      exact_mod_cast hM
    rw [Real.sqrt_le_left hM', ← Rat.cast_pow, Rat.cast_le]
    nlinarith [hsq]
  · apply verify_movement_noop
    · rw [htal]; exact hx
    · rw [htal]; exact hy

/-! ## Goalkeeper -/

/-- C21: `gk_movement` seeks the point `(x_fixed, y_target)` at full motivation, where
`x_fixed` depends only on the team (`PITCH_X + PLAYER_RADIUS` for team 1,
`PITCH_X + PITCH_W - PLAYER_RADIUS` otherwise) and `y_target` is the ball's y exactly
when `goal_top + BALL_RADIUS <= ball.y <= goal_bottom - BALL_RADIUS`, the keeper's own y
otherwise.  Whenever the ball's y is outside that range the resulting y-velocity
is 0. -/
theorem gk_movement_target (c : Constants) (L : Libm) (self : PlayerId) (w : World) :
    gk_movement c L self w =
      move_towards_target c L self w
        (if (w.player self).team = 1 then c.PITCH_X + c.PLAYER_RADIUS
          else c.PITCH_X + c.PITCH_W - c.PLAYER_RADIUS)
        (if c.CENTER_Y - c.GOAL_HEIGHT / 2 + c.BALL_RADIUS ≤ w.scene.ball.position.y ∧
            w.scene.ball.position.y ≤ c.CENTER_Y + c.GOAL_HEIGHT / 2 - c.BALL_RADIUS then
          w.scene.ball.position.y
        else (w.player self).position.y)
        1 ∧
    (c.CENTER_Y - c.GOAL_HEIGHT / 2 + c.BALL_RADIUS ≤ w.scene.ball.position.y ∧
        w.scene.ball.position.y ≤ c.CENTER_Y + c.GOAL_HEIGHT / 2 - c.BALL_RADIUS →
      gk_movement c L self w =
        move_towards_target c L self w
          (if (w.player self).team = 1 then c.PITCH_X + c.PLAYER_RADIUS
            else c.PITCH_X + c.PITCH_W - c.PLAYER_RADIUS)
          w.scene.ball.position.y 1) ∧
    (¬ (c.CENTER_Y - c.GOAL_HEIGHT / 2 + c.BALL_RADIUS ≤ w.scene.ball.position.y ∧
        w.scene.ball.position.y ≤ c.CENTER_Y + c.GOAL_HEIGHT / 2 - c.BALL_RADIUS) →
      gk_movement c L self w =
        move_towards_target c L self w
          (if (w.player self).team = 1 then c.PITCH_X + c.PLAYER_RADIUS
            else c.PITCH_X + c.PITCH_W - c.PLAYER_RADIUS)
          (w.player self).position.y 1 ∧
      ((gk_movement c L self w).player self).velocity.y = 0) := by
  refine ⟨gk_movement_eq c L self w, fun hin => ?_, fun hout => ?_⟩
  · rw [gk_movement_eq, if_pos hin]
  · rw [gk_movement_eq, if_neg hout]
    refine ⟨rfl, ?_⟩
    rw [move_towards_target_eq, setVelocity_velocity]
    split_ifs <;> simp

/-! ## The built-in logic is legal -/

/-- C23: running `change_stater` and then `verify_state` on the same scene leaves the
world `change_stater` produced, so the state it chose, unchanged, and reports no
violation; after `change_stater` the player is SHOOTING only if it is the ball's
possessor. -/
theorem change_stater_then_verify_state (self : PlayerId) (w : World) :
    verify_state self (change_stater self w) = (change_stater self w, []) ∧
    ((verify_state self (change_stater self w)).1.player self).state =
      ((change_stater self w).player self).state ∧
    (((change_stater self w).player self).state = PlayerState.SHOOTING →
      (change_stater self w).scene.ball.possessor = some self) := by
  have hscene : (change_stater self w).scene = w.scene := (change_stater_frame self w).1
  have hshoot : ((change_stater self w).player self).state = PlayerState.SHOOTING →
      (change_stater self w).scene.ball.possessor = some self := by
    intro hs
    rw [hscene]
    rw [change_stater_state_eq] at hs
    by_contra hp
    rw [if_neg hp] at hs
    split_ifs at hs
  have hverify : verify_state self (change_stater self w) = (change_stater self w, []) := by
    unfold verify_state
    simp only []
    rw [if_neg]
    rintro ⟨hp, hs⟩
    exact hp (hshoot hs)
  exact ⟨hverify, by rw [hverify], hshoot⟩

/-- C22: with a positive `MAX_TALENT_PER_SKILL`, a `MAX_PLAYER_VELOCITY` that is not
negative and a `hypotf` that never returns less than the Euclidean norm, for every
team, every kit in 0..5 and either value of `coach_both_teams` the accessor returns a
movement logic such that, for every scene and every player whose agility is not
negative, the velocity it writes has Euclidean norm at most
`max = (agility / MAX_TALENT_PER_SKILL) * MAX_PLAYER_VELOCITY`, each component is within
`[-max, max]`, and a following `verify_movement` leaves the player unchanged and
reports no clamp. -/
theorem movement_logic_legal (c : Constants) (L : Libm) (hT : 0 < c.MAX_TALENT_PER_SKILL)
    (hV : 0 ≤ c.MAX_PLAYER_VELOCITY) (hL : L.NeverUnderestimates)
    (coach_both_teams : Bool) (team kit : Int) (hk0 : 0 ≤ kit) (hk5 : kit ≤ 5) :
    ∃ f, get_movement_logic coach_both_teams team kit = some f ∧
      ∀ (rnd : Nat → Nat) (self : PlayerId) (w : World),
        0 ≤ (w.player self).talents.agility →
        ((f.call c L rnd self w).player self).velocity.x *
            ((f.call c L rnd self w).player self).velocity.x +
          ((f.call c L rnd self w).player self).velocity.y *
            ((f.call c L rnd self w).player self).velocity.y ≤
          (((w.player self).talents.agility : ℚ) / (c.MAX_TALENT_PER_SKILL : ℚ) *
              c.MAX_PLAYER_VELOCITY) *
            (((w.player self).talents.agility : ℚ) / (c.MAX_TALENT_PER_SKILL : ℚ) *
              c.MAX_PLAYER_VELOCITY) ∧
        Real.sqrt
            (((((f.call c L rnd self w).player self).velocity.x ^ 2 +
              ((f.call c L rnd self w).player self).velocity.y ^ 2 : ℚ)) : ℝ) ≤
          ((((w.player self).talents.agility : ℚ) / (c.MAX_TALENT_PER_SKILL : ℚ) *
            c.MAX_PLAYER_VELOCITY : ℚ) : ℝ) ∧
        |((f.call c L rnd self w).player self).velocity.x| ≤
          ((w.player self).talents.agility : ℚ) / (c.MAX_TALENT_PER_SKILL : ℚ) *
            c.MAX_PLAYER_VELOCITY ∧
        |((f.call c L rnd self w).player self).velocity.y| ≤
          ((w.player self).talents.agility : ℚ) / (c.MAX_TALENT_PER_SKILL : ℚ) *
            c.MAX_PLAYER_VELOCITY ∧
        verify_movement c ((f.call c L rnd self w).player self) =
          ((f.call c L rnd self w).player self, []) := by
  obtain ⟨f, hf⟩ := get_movement_logic_some coach_both_teams team kit hk0 hk5
  refine ⟨f, hf, fun rnd self w hag => ?_⟩
  obtain ⟨tx, ty, m, hm0, hm1, heq⟩ := call_movement_is_seek c L rnd f
    (get_movement_logic_mem coach_both_teams team kit f hf) self w
  rw [heq]
  exact move_towards_target_legal c L hT hV hL self w tx ty m hm0 hm1 hag

/-- C22 at a concrete input: on the sample pitch, with the library `upperLibm`, the
movement logic selected for team 2, kit 4 with per-team tables exists and is legal for
every player of agility at least 0. -/
theorem movement_logic_legal_witness :
    (0 < samplePitch.MAX_TALENT_PER_SKILL ∧ 0 ≤ samplePitch.MAX_PLAYER_VELOCITY ∧
      upperLibm.NeverUnderestimates ∧ (0 : Int) ≤ 4 ∧ (4 : Int) ≤ 5) ∧
    ∃ f, get_movement_logic false 2 4 = some f ∧
      ∀ (rnd : Nat → Nat) (self : PlayerId) (w : World),
        0 ≤ (w.player self).talents.agility →
        verify_movement samplePitch ((f.call samplePitch upperLibm rnd self w).player self) =
          ((f.call samplePitch upperLibm rnd self w).player self, []) :=
  ⟨⟨by decide, by norm_num [samplePitch], upperLibm_neverUnderestimates, by decide,
      by decide⟩,
    match movement_logic_legal samplePitch upperLibm (by decide) (by norm_num [samplePitch])
        upperLibm_neverUnderestimates false 2 4 (by decide) (by decide) with
    | ⟨f, hf, h⟩ => ⟨f, hf, fun rnd self w hag => (h rnd self w hag).2.2.2.2⟩⟩

end Soccer
